import Mathlib

/-!
Verification of the Grantee-app signal-scoring and grant-matching core.

This file gives a shallow embedding of the deterministic scoring/matching
engine of the repository (files `src/lib/signals/scoring.ts`,
`src/lib/signals/config.ts`, `src/lib/matching.ts`, `src/data/niches.ts`)
and proves properties of it.

Modelling conventions:
* JavaScript numbers are modelled as exact rationals `ℚ`; `Math.round x` is
  `⌊x + 1/2⌋` (the JS half-up rounding), `Math.floor` is `⌊·⌋`, `Math.min` /
  `Math.max` are `min` / `max`.
* Timestamps: `Date.now()` is an explicit parameter `now : ℚ` (milliseconds);
  a telemetry last-commit string is modelled by its parsed timestamp
  (`Option ℚ`, `none` for a missing or empty string), since the code only
  ever uses `new Date(str).getTime()`.
* Optional / possibly-undefined telemetry fields are `Option` fields; the
  source's `safeNumber` / `safeArray` / `safeObject` defaults (0, `[]`,
  zero-shaped object) become `Option.getD` on dedicated accessor functions.
* `String.prototype.includes` is `strIncludes` below; `toLowerCase` is
  `strToLower` below (character-wise lower-casing; it agrees with
  JavaScript on the ASCII data involved here).
* `Array.prototype.sort(cmp)` (stable since ES2019) is modelled with the
  stable `List.insertionSort` on the ordering the comparator induces.
* Number formatting in human-readable strings (`toLocaleString`, template
  interpolation) is abstracted by exact rational/integer printing; no claim
  depends on the text of a label, description, message or explanation.
-/

namespace Grantee

/-- JavaScript `Math.round`: round half-up (towards `+∞`). -/
def jsRound (x : ℚ) : ℤ := ⌊x + 1/2⌋

/-- Whether the character list starting here begins with `needle`. -/
def listStartsWith : List Char → List Char → Bool
  | _, [] => true
  | [], _ :: _ => false
  | a :: as, b :: bs => a == b && listStartsWith as bs

/-- Whether `needle` occurs as a contiguous run inside the character list. -/
def listHasSub (needle : List Char) : List Char → Bool
  | [] => needle.isEmpty
  | c :: cs => listStartsWith (c :: cs) needle || listHasSub needle cs

/-- JavaScript `s.includes(sub)`. -/
def strIncludes (s sub : String) : Bool := listHasSub sub.data s.data

/-- JavaScript `s.toLowerCase()`, character-wise (the kernel-computable
form of `String.toLower`). -/
def strToLower (s : String) : String := String.mk (s.data.map Char.toLower)

/-- Printing of a rational for interpolated description strings. -/
def ratStr (q : ℚ) : String := toString q

/-- Printing of an integer for interpolated description strings. -/
def intStr (n : ℤ) : String := toString n

-- ============= config.ts : weights and thresholds =============

/-- One row of `SIGNAL_THRESHOLDS` (config.ts): tier bounds for the
four-tier piecewise normalization; `exceptional` is optional. -/
structure Thresholds where
  low : ℚ
  medium : ℚ
  high : ℚ
  exceptional : Option ℚ
deriving DecidableEq, Repr

/-- `SIGNAL_THRESHOLDS.stars` (config.ts line 44). -/
def starsThresholds : Thresholds := ⟨10, 100, 1000, some 10000⟩

/-- `SIGNAL_THRESHOLDS.forks` (config.ts line 45). -/
def forksThresholds : Thresholds := ⟨5, 25, 100, some 500⟩

/-- `SIGNAL_THRESHOLDS.commits30d` (config.ts line 46). -/
def commits30dThresholds : Thresholds := ⟨5, 20, 50, some 100⟩

/-- `SIGNAL_WEIGHTS` (config.ts lines 4-31): static weight table, keyed by
signal key; rows the scoring pipeline never reads are included for
completeness, unknown keys give 0. -/
def signalWeight : String → ℚ
  | "commits30d" => 0.15
  | "commits60d" => 0.08
  | "commits90d" => 0.05
  | "lastCommitRecency" => 0.12
  | "stars" => 0.10
  | "forks" => 0.08
  | "contributors" => 0.10
  | "issueActivity" => 0.05
  | "prActivity" => 0.07
  | "hasTests" => 0.08
  | "hasCI" => 0.05
  | "codeStructure" => 0.06
  | "readmeQuality" => 0.10
  | "hasContributing" => 0.03
  | "hasLicense" => 0.02
  | "hasDeployment" => 0.08
  | "hasContracts" => 0.10
  | _ => 0

/-- `SCORE_TYPE_WEIGHTS` (config.ts lines 34-39). -/
def scoreTypeWeight : String → ℚ
  | "grantFit" => 0.35
  | "capitalReadiness" => 0.25
  | "ecosystemAlignment" => 0.25
  | "engagementEase" => 0.15
  | _ => 0

/-- `RISK_THRESHOLDS.inactivityDays` (config.ts line 92). -/
def inactivityDays : ℤ := 60

/-- `RISK_THRESHOLDS.criticalInactivityDays` (config.ts line 93). -/
def criticalInactivityDays : ℤ := 180

/-- `RISK_THRESHOLDS.lowStars` (config.ts line 94). -/
def lowStars : ℚ := 5

/-- `RISK_THRESHOLDS.highOpenIssueRatio` (config.ts line 97). -/
def highOpenIssueShare : ℚ := 0.8

-- ============= scoring.ts : normalization helper =============

/-- `normalizeValue` (scoring.ts lines 664-675): four-tier piecewise-linear
threshold normalization.  The guard `thresholds.exceptional && value <=
thresholds.exceptional` of the source is a JS truthiness test, hence the
`e ≠ 0` conjunct. -/
def normalizeValue (value : ℚ) (t : Thresholds) : ℚ :=
  if value ≤ t.low then value / t.low * 0.25
  else if value ≤ t.medium then 0.25 + (value - t.low) / (t.medium - t.low) * 0.25
  else if value ≤ t.high then 0.5 + (value - t.medium) / (t.high - t.medium) * 0.25
  else
    match t.exceptional with
    | some e =>
      if e ≠ 0 ∧ value ≤ e then 0.75 + (value - t.high) / (e - t.high) * 0.25 else 1
    | none => 1

-- ============= telemetry input (RepoAnalysisResult) =============

/-- `result.activity` block; `lastCommit` is the parsed timestamp of the
last-commit string (`none` = field missing or empty string). -/
structure ActivityInfo where
  lastCommit : Option ℚ
  commits30d : Option ℚ
deriving DecidableEq, Repr

/-- `result.issues` block (`open` / `closed` in the source; renamed because
`open` is a Lean keyword). -/
structure IssuesInfo where
  openIssues : Option ℚ
  closedIssues : Option ℚ
deriving DecidableEq, Repr

/-- `result.codeQuality` block. -/
structure CodeQualityInfo where
  score : Option ℚ
  notes : Option (List String)
deriving DecidableEq, Repr

/-- One externally supplied grant match (`GrantMatch` in lib/types). -/
structure GrantMatch where
  program : Option String
  ecosystem : Option String
  fitScore : Option ℚ
  why : Option (List String)
  url : Option String
deriving DecidableEq, Repr

/-- `result.grantFit` block (`matches` is renamed `grantMatches`: `matches`
is a Lean keyword). -/
structure GrantFitInfo where
  signals : Option (List String)
  recommendations : Option (List String)
  grantMatches : Option (List GrantMatch)
deriving DecidableEq, Repr

/-- External telemetry snapshot (`RepoAnalysisResult`).  The code only ever
reads `Object.keys(result.languages)`, so the language map is modelled by
its key list. -/
structure RepoAnalysisResult where
  repo : Option String
  stars : Option ℚ
  forks : Option ℚ
  languages : Option (List String)
  activity : Option ActivityInfo
  issues : Option IssuesInfo
  codeQuality : Option CodeQualityInfo
  grantFit : Option GrantFitInfo
deriving DecidableEq, Repr

/-- Telemetry with every optional field missing. -/
def emptyTelemetry : RepoAnalysisResult :=
  ⟨none, none, none, none, none, none, none, none⟩

-- Safe accessors: each mirrors the composition of `safeObject` /
-- `safeNumber` / `safeArray` / `safeString` fallbacks in scoring.ts.

/-- `safeNumber(result.stars)`. -/
def starsOf (r : RepoAnalysisResult) : ℚ := r.stars.getD 0

/-- `safeNumber(result.forks)`. -/
def forksOf (r : RepoAnalysisResult) : ℚ := r.forks.getD 0

/-- `safeNumber(safeObject(result.activity).commits30d)`. -/
def commits30dOf (r : RepoAnalysisResult) : ℚ :=
  (r.activity.bind ActivityInfo.commits30d).getD 0

/-- `safeString(safeObject(result.activity).lastCommit)`, as a parsed
timestamp: `none` = missing or empty string. -/
def lastCommitOf (r : RepoAnalysisResult) : Option ℚ :=
  r.activity.bind ActivityInfo.lastCommit

/-- `safeNumber(safeObject(result.issues).open)`. -/
def openIssuesOf (r : RepoAnalysisResult) : ℚ :=
  (r.issues.bind IssuesInfo.openIssues).getD 0

/-- `safeNumber(safeObject(result.issues).closed)`. -/
def closedIssuesOf (r : RepoAnalysisResult) : ℚ :=
  (r.issues.bind IssuesInfo.closedIssues).getD 0

/-- `safeNumber(safeObject(result.codeQuality).score)`. -/
def qualityScoreOf (r : RepoAnalysisResult) : ℚ :=
  (r.codeQuality.bind CodeQualityInfo.score).getD 0

/-- `safeArray(safeObject(result.codeQuality).notes)`. -/
def qualityNotesOf (r : RepoAnalysisResult) : List String :=
  (r.codeQuality.bind CodeQualityInfo.notes).getD []

/-- `Object.keys(safeObject(result.languages))`. -/
def languagesOf (r : RepoAnalysisResult) : List String :=
  r.languages.getD []

/-- `safeArray(safeObject(result.grantFit).signals)`. -/
def grantSignalsOf (r : RepoAnalysisResult) : List String :=
  (r.grantFit.bind GrantFitInfo.signals).getD []

/-- `safeArray(safeObject(result.grantFit).matches)`. -/
def matchesOf (r : RepoAnalysisResult) : List GrantMatch :=
  (r.grantFit.bind GrantFitInfo.grantMatches).getD []

/-- `Math.floor((Date.now() - lastCommitDate.getTime()) / 86400000)`;
`999` when the telemetry carries no last-commit date (scoring.ts line 83). -/
def daysSinceCommit (now : ℚ) (lastCommit : Option ℚ) : ℤ :=
  match lastCommit with
  | some t => ⌊(now - t) / 86400000⌋
  | none => 999

-- Normalized values of the eight extracted signals, named for reuse in
-- proofs; each is exactly the expression extractSignals computes.

/-- Normalized value of the `commits30d` signal. -/
def nvCommits (r : RepoAnalysisResult) : ℚ :=
  normalizeValue (commits30dOf r) commits30dThresholds

/-- Normalized value of the `lastCommitRecency` signal:
`Math.max(0, 1 - daysSinceCommit / 90)`. -/
def nvRecency (now : ℚ) (r : RepoAnalysisResult) : ℚ :=
  max 0 (1 - (daysSinceCommit now (lastCommitOf r) : ℚ) / 90)

/-- Normalized value of the `stars` signal. -/
def nvStars (r : RepoAnalysisResult) : ℚ :=
  normalizeValue (starsOf r) starsThresholds

/-- Normalized value of the `forks` signal. -/
def nvForks (r : RepoAnalysisResult) : ℚ :=
  normalizeValue (forksOf r) forksThresholds

/-- Issue resolution rate: `closed / (open + closed)` when there are issues,
else 0 (scoring.ts line 120). -/
def issueRateOf (r : RepoAnalysisResult) : ℚ :=
  if openIssuesOf r + closedIssuesOf r > 0 then
    closedIssuesOf r / (openIssuesOf r + closedIssuesOf r)
  else 0

/-- Normalized value of the `codeQuality` signal: `score / 100`. -/
def nvQuality (r : RepoAnalysisResult) : ℚ := qualityScoreOf r / 100

/-- Substring heuristic for tests: some quality note contains `"test"` or
`"spec"` (scoring.ts lines 145-147). -/
def hasTestsB (r : RepoAnalysisResult) : Bool :=
  (qualityNotesOf r).any fun note =>
    strIncludes (strToLower note) "test" || strIncludes (strToLower note) "spec"

/-- Solidity detection: `"Solidity"` among the language keys. -/
def hasSolidityB (r : RepoAnalysisResult) : Bool :=
  (languagesOf r).contains "Solidity"

-- ============= RawSignal and extractSignals =============

/-- `rawValue: number | string | boolean`. -/
inductive RawValue where
  | num (q : ℚ)
  | str (s : String)
  | bool (b : Bool)
deriving DecidableEq, Repr, Inhabited

/-- JS `String(rawValue)`. -/
def RawValue.asString : RawValue → String
  | .num q => ratStr q
  | .str s => s
  | .bool b => if b then "true" else "false"

/-- A normalized observation (`RawSignal` in signals/types.ts); the category
union type is modelled by its string values. -/
structure RawSignal where
  key : String
  category : String
  rawValue : RawValue
  normalizedValue : ℚ
  label : String
  description : String
  weight : ℚ
deriving DecidableEq, Repr, Inhabited

/-- `extractSignals` (scoring.ts lines 49-173): null telemetry yields `[]`,
otherwise exactly the eight signals below, in source order. -/
def extractSignals (now : ℚ) (result : Option RepoAnalysisResult) : List RawSignal :=
  match result with
  | none => []
  | some r =>
    let commits30d := commits30dOf r
    let stars := starsOf r
    let forks := forksOf r
    let d := daysSinceCommit now (lastCommitOf r)
    let rate := issueRateOf r
    let qualityScore := qualityScoreOf r
    let hasTests := hasTestsB r
    let hasSolidity := hasSolidityB r
    [ { key := "commits30d", category := "activity", rawValue := .num commits30d,
        normalizedValue := nvCommits r,
        label := "Recent Commits (30d)",
        description := ratStr commits30d ++ " commits in the last 30 days",
        weight := signalWeight "commits30d" },
      { key := "lastCommitRecency", category := "activity", rawValue := .num (d : ℚ),
        normalizedValue := nvRecency now r,
        label := "Last Commit Recency",
        description :=
          match lastCommitOf r with
          | some _ => "Last commit " ++ intStr d ++ " days ago"
          | none => "No commit data",
        weight := signalWeight "lastCommitRecency" },
      { key := "stars", category := "community", rawValue := .num stars,
        normalizedValue := nvStars r,
        label := "GitHub Stars",
        description := ratStr stars ++ " stars",
        weight := signalWeight "stars" },
      { key := "forks", category := "community", rawValue := .num forks,
        normalizedValue := nvForks r,
        label := "Forks",
        description := ratStr forks ++ " forks",
        weight := signalWeight "forks" },
      { key := "issueActivity", category := "community", rawValue := .num rate,
        normalizedValue := rate,
        label := "Issue Resolution Rate",
        description := intStr (jsRound (rate * 100)) ++ "% of issues resolved",
        weight := signalWeight "issueActivity" },
      { key := "codeQuality", category := "code_quality", rawValue := .num qualityScore,
        normalizedValue := nvQuality r,
        label := "Code Quality Score",
        description := "Quality score: " ++ ratStr qualityScore ++ "/100",
        weight := signalWeight "codeStructure" },
      { key := "hasTests", category := "code_quality", rawValue := .bool hasTests,
        normalizedValue := if hasTests then 1 else 0,
        label := "Test Coverage",
        description := if hasTests then "Has test files" else "No tests detected",
        weight := signalWeight "hasTests" },
      { key := "hasContracts", category := "deployment", rawValue := .bool hasSolidity,
        normalizedValue := if hasSolidity then 1 else 0,
        label := "Smart Contracts",
        description :=
          if hasSolidity then "Contains Solidity contracts"
          else "No smart contracts detected",
        weight := signalWeight "hasContracts" } ]

-- ============= score calculation =============

/-- One factor row of a breakdown (`ScoreBreakdown.factors` element). -/
structure Factor where
  name : String
  contribution : ℚ
  explanation : String
deriving DecidableEq, Repr

/-- A named sub-score (`ScoreBreakdown`); the `ScoreType` union is modelled
by its string values.  `score` is `ℤ` because the source always stores
`Math.round(totalScore)` there. -/
structure ScoreBreakdown where
  type : String
  score : ℤ
  label : String
  description : String
  factors : List Factor
deriving DecidableEq, Repr

/-- `ProjectScores`. -/
structure ProjectScores where
  grantFit : ScoreBreakdown
  capitalReadiness : ScoreBreakdown
  ecosystemAlignment : ScoreBreakdown
  engagementEase : ScoreBreakdown
  overall : ℤ
  calculatedAt : ℚ
deriving DecidableEq, Repr

/-- `calculateGrantFitScore` (scoring.ts lines 220-273).  The JS
`codeQualitySignal?.normalizedValue || 0` is `getD 0` here: the two differ
only in mapping an explicit 0 to 0. -/
def calculateGrantFitScore (signals : List RawSignal) (r : RepoAnalysisResult) :
    ScoreBreakdown :=
  let codeNv := ((signals.find? fun s => s.key == "codeQuality").map
    RawSignal.normalizedValue).getD 0
  let codeScore := codeNv * 40
  let activitySignals := signals.filter fun s => s.category == "activity"
  let activityAvg :=
    if activitySignals.length > 0 then
      (activitySignals.map RawSignal.normalizedValue).sum / (activitySignals.length : ℚ)
    else 0
  let activityScore := activityAvg * 30
  let communitySignals := signals.filter fun s => s.category == "community"
  let communityAvg :=
    if communitySignals.length > 0 then
      (communitySignals.map RawSignal.normalizedValue).sum / (communitySignals.length : ℚ)
    else 0
  let communityScore := communityAvg * 30
  { type := "grantFit"
    score := jsRound (codeScore + activityScore + communityScore)
    label := "Grant Fit Score"
    description := "How well the project matches available grant programs"
    factors := [
      { name := "Technical Maturity", contribution := (jsRound codeScore : ℚ),
        explanation := "Code quality score of " ++ ratStr (qualityScoreOf r) ++ "/100" },
      { name := "Project Activity", contribution := (jsRound activityScore : ℚ),
        explanation := ratStr (commits30dOf r) ++ " commits in 30 days" },
      { name := "Community Traction", contribution := (jsRound communityScore : ℚ),
        explanation := ratStr (starsOf r) ++ " stars, " ++ ratStr (forksOf r) ++ " forks" } ] }

/-- `closed / Math.max(1, open + closed)` (scoring.ts lines 317 and 409). -/
def flooredIssueRatio (r : RepoAnalysisResult) : ℚ :=
  closedIssuesOf r / max 1 (openIssuesOf r + closedIssuesOf r)

/-- `calculateCapitalReadinessScore` (scoring.ts lines 275-333). -/
def calculateCapitalReadinessScore (_signals : List RawSignal)
    (r : RepoAnalysisResult) : ScoreBreakdown :=
  let qualityNotes := qualityNotesOf r
  let docScore : ℚ := min ((qualityNotes.length : ℚ) * 7) 35
  let qualityScore := qualityScoreOf r
  let codeScore := qualityScore / 100 * 30
  let commits := commits30dOf r
  let velocityScore : ℚ := min (commits * 0.5) 20
  let issueScore := flooredIssueRatio r * 15
  { type := "capitalReadiness"
    score := jsRound (docScore + codeScore + velocityScore + issueScore)
    label := "Capital Readiness Score"
    description := "How prepared the project is for funding"
    factors := [
      { name := "Documentation Quality", contribution := docScore,
        explanation := intStr qualityNotes.length ++ " quality indicators found" },
      { name := "Code Quality", contribution := (jsRound codeScore : ℚ),
        explanation := "Quality score: " ++ ratStr qualityScore },
      { name := "Development Velocity", contribution := (jsRound velocityScore : ℚ),
        explanation := ratStr commits ++ " recent commits" },
      { name := "Issue Management", contribution := (jsRound issueScore : ℚ),
        explanation := intStr (jsRound (flooredIssueRatio r * 100)) ++ "% issues resolved" } ] }

/-- `calculateEcosystemAlignmentScore` (scoring.ts lines 335-380). -/
def calculateEcosystemAlignmentScore (_signals : List RawSignal)
    (r : RepoAnalysisResult) : ScoreBreakdown :=
  let languageKeys := languagesOf r
  let hasSolidity := languageKeys.contains "Solidity"
  let hasRust := languageKeys.contains "Rust"
  let hasTS := languageKeys.contains "TypeScript" || languageKeys.contains "JavaScript"
  let langScore : ℚ :=
    min ((if hasSolidity then 25 else 0) + (if hasRust then 15 else 0) +
      (if hasTS then 10 else 0)) 50
  let signalCount := (grantSignalsOf r).length
  let signalScore : ℚ := min ((signalCount : ℚ) * 10) 50
  let primary := String.intercalate ", " (languageKeys.take 3)
  { type := "ecosystemAlignment"
    score := jsRound (langScore + signalScore)
    label := "Ecosystem Alignment Score"
    description := "Which ecosystems fit best for this project"
    factors := [
      { name := "Language Ecosystem Fit", contribution := langScore,
        explanation := "Primary: " ++ (if primary = "" then "Unknown" else primary) },
      { name := "Grant Signal Alignment", contribution := signalScore,
        explanation := intStr signalCount ++ " grant-relevant signals detected" } ] }

/-- `calculateEngagementEaseScore` (scoring.ts lines 382-434). -/
def calculateEngagementEaseScore (now : ℚ) (_signals : List RawSignal)
    (r : RepoAnalysisResult) : ScoreBreakdown :=
  let d := daysSinceCommit now (lastCommitOf r)
  let recencyScore : ℚ := max 0 (40 - (d : ℚ) * 0.5)
  let issueRatio := flooredIssueRatio r
  let responsivenessScore := issueRatio * 30
  let docScore : ℚ := min (((qualityNotesOf r).length : ℚ) * 6) 30
  { type := "engagementEase"
    score := jsRound (recencyScore + responsivenessScore + docScore)
    label := "Engagement Ease Score"
    description := "How easy it is for partners to engage this team"
    factors := [
      { name := "Activity Recency", contribution := (jsRound recencyScore : ℚ),
        explanation :=
          match lastCommitOf r with
          | some _ => "Last commit " ++ intStr d ++ " days ago"
          | none => "No commit data" },
      { name := "Team Responsiveness", contribution := (jsRound responsivenessScore : ℚ),
        explanation := ratStr (closedIssuesOf r) ++ " issues closed" },
      { name := "Project Clarity", contribution := docScore,
        explanation := "Based on code quality notes" } ] }

/-- The all-zero breakdown returned for null telemetry
(scoring.ts lines 179-185). -/
def defaultBreakdown (ty lbl desc : String) : ScoreBreakdown :=
  { type := ty, score := 0, label := lbl, description := desc, factors := [] }

/-- `calculateScores` (scoring.ts lines 177-218): null telemetry yields the
all-zero scores, otherwise the four breakdowns and the weighted overall. -/
def calculateScores (now : ℚ) (signals : List RawSignal)
    (result : Option RepoAnalysisResult) : ProjectScores :=
  match result with
  | none =>
    { grantFit := defaultBreakdown "grantFit" "Grant Fit Score" "No data available"
      capitalReadiness :=
        defaultBreakdown "capitalReadiness" "Capital Readiness Score" "No data available"
      ecosystemAlignment :=
        defaultBreakdown "ecosystemAlignment" "Ecosystem Alignment Score" "No data available"
      engagementEase :=
        defaultBreakdown "engagementEase" "Engagement Ease Score" "No data available"
      overall := 0
      calculatedAt := now }
  | some r =>
    let grantFit := calculateGrantFitScore signals r
    let capitalReadiness := calculateCapitalReadinessScore signals r
    let ecosystemAlignment := calculateEcosystemAlignmentScore signals r
    let engagementEase := calculateEngagementEaseScore now signals r
    { grantFit := grantFit
      capitalReadiness := capitalReadiness
      ecosystemAlignment := ecosystemAlignment
      engagementEase := engagementEase
      overall := jsRound
        ((grantFit.score : ℚ) * scoreTypeWeight "grantFit" +
         (capitalReadiness.score : ℚ) * scoreTypeWeight "capitalReadiness" +
         (ecosystemAlignment.score : ℚ) * scoreTypeWeight "ecosystemAlignment" +
         (engagementEase.score : ℚ) * scoreTypeWeight "engagementEase")
      calculatedAt := now }

-- ============= risk flags =============

/-- `RiskFlag.type`. -/
inductive FlagKind where
  | warning
  | critical
deriving DecidableEq, Repr

/-- `RiskFlag`. -/
structure RiskFlag where
  type : FlagKind
  message : String
  category : String
deriving DecidableEq, Repr

/-- The `hasTests` lookup shared by `detectRiskFlags` and
`generateNextActions`: `signals.find(s => s.key === 'hasTests')
?.normalizedValue === 1` (scoring.ts lines 479 and 530). -/
def foundHasTests (signals : List RawSignal) : Bool :=
  ((signals.find? fun s => s.key == "hasTests").map RawSignal.normalizedValue)
    == some 1

/-- `detectRiskFlags` (scoring.ts lines 438-501).  Activity flags are only
considered when the telemetry carries a last-commit date (the source guards
on a non-empty `lastCommit` string). -/
def detectRiskFlags (now : ℚ) (signals : List RawSignal)
    (result : Option RepoAnalysisResult) : List RiskFlag :=
  match result with
  | none => []
  | some r =>
    (match lastCommitOf r with
     | some t =>
       let d := daysSinceCommit now (some t)
       if d > criticalInactivityDays then
         [{ type := .critical, message := "No commits in " ++ intStr d ++ " days",
            category := "activity" }]
       else if d > inactivityDays then
         [{ type := .warning,
            message := "Limited recent activity (" ++ intStr d ++ " days since last commit)",
            category := "activity" }]
       else []
     | none => []) ++
    (if starsOf r < lowStars then
       [{ type := .warning, message := "Low community visibility (few stars)",
          category := "community" }]
     else []) ++
    (if foundHasTests signals then []
     else
       [{ type := .warning, message := "No test coverage detected",
          category := "code_quality" }]) ++
    (let totalIssues := openIssuesOf r + closedIssuesOf r
     if totalIssues > 10 ∧ openIssuesOf r / totalIssues > highOpenIssueShare then
       [{ type := .warning, message := "High ratio of unresolved issues",
          category := "community" }]
     else [])

-- ============= next actions =============

/-- `NextAction.priority`. -/
inductive Priority where
  | high
  | medium
  | low
deriving DecidableEq, Repr

/-- `NextAction`. -/
structure NextAction where
  id : String
  action : String
  priority : Priority
  impact : String
  completed : Bool
deriving DecidableEq, Repr

/-- The five rule evaluations of `generateNextActions` (scoring.ts lines
505-575), in source order: each yields one `(action, priority, impact)`
entry or nothing.  `matches[0].program` on a match without a program field
prints as the string `undefined` in JS. -/
def nextActionEntries (signals : List RawSignal) (r : RepoAnalysisResult)
    (riskFlags : List RiskFlag) : List (String × Priority × String) :=
  (if riskFlags.any (fun f => f.category == "activity") then
    [("Increase commit frequency to show active development", Priority.high,
      "Improves Grant Fit and Engagement scores by 15-20 points")]
   else []) ++
  (if foundHasTests signals then []
   else
    [("Add unit tests and integration tests", Priority.high,
      "Improves Capital Readiness score by 10-15 points")]) ++
  (if starsOf r < 50 then
    [("Promote project to increase GitHub stars", Priority.medium,
      "Improves Ecosystem Alignment and visibility")]
   else []) ++
  (if (qualityNotesOf r).length < 3 then
    [("Improve README with installation, usage examples, and API docs",
      Priority.high, "Improves Capital Readiness by 10-20 points")]
   else []) ++
  (match matchesOf r with
   | [] => []
   | m :: _ =>
     [("Apply to top matching grant: " ++ m.program.getD "undefined",
       Priority.high, "Direct funding opportunity")])

/-- `generateNextActions` (scoring.ts lines 505-575): the rule entries with
sequential ids `action-1`, `action-2`, ... attached in append order, then
truncated with `slice(0, 5)`. -/
def generateNextActions (signals : List RawSignal)
    (result : Option RepoAnalysisResult) (riskFlags : List RiskFlag) :
    List NextAction :=
  match result with
  | none => []
  | some r =>
    (((nextActionEntries signals r riskFlags).enum.map fun p =>
      { id := "action-" ++ intStr ((p.1 : ℤ) + 1)
        action := p.2.1
        priority := p.2.2.1
        impact := p.2.2.2
        completed := false }).take 5)

-- ============= opportunity card =============

/-- A "strongest signal" row of the card. -/
structure StrongSignal where
  label : String
  value : String
  strength : String
deriving DecidableEq, Repr

/-- `GrantRecommendation`. -/
structure GrantRecommendation where
  grantId : String
  programName : String
  ecosystem : String
  confidence : ℚ
  whyFits : List String
  applyUrl : Option String
deriving DecidableEq, Repr

/-- `OpportunityCard`. -/
structure OpportunityCard where
  id : String
  projectId : String
  projectName : String
  projectUrl : String
  summary : String
  strongestSignals : List StrongSignal
  riskFlags : List RiskFlag
  scores : ProjectScores
  grantRecommendations : List GrantRecommendation
  nextActions : List NextAction
  generatedAt : ℚ
deriving DecidableEq, Repr

/-- `(match.program || 'unknown').toLowerCase().replace(/\s+/g, '-')`:
lower-case, then each maximal whitespace run becomes one `-`. -/
def collapseWsAux : Bool → List Char → List Char
  | _, [] => []
  | prevWs, c :: cs =>
    if c.isWhitespace then
      if prevWs then collapseWsAux true cs
      else '-' :: collapseWsAux true cs
    else c :: collapseWsAux false cs

/-- Grant-id slug used by `generateOpportunityCard`. -/
def slugify (s : String) : String :=
  String.mk (collapseWsAux false (strToLower s).data)

/-- `generateProjectSummary` (scoring.ts lines 647-660). -/
def generateProjectSummary (r : RepoAnalysisResult) (scores : ProjectScores) :
    String :=
  let firstLang := (languagesOf r).headD ""
  let primaryLang := if firstLang = "" then "Unknown" else firstLang
  let commits := commits30dOf r
  let activityLevel :=
    if commits > 20 then "highly active"
    else if commits > 5 then "moderately active"
    else "low activity"
  let readiness :=
    if scores.capitalReadiness.score ≥ 70 then "capital-ready"
    else if scores.capitalReadiness.score ≥ 50 then "developing"
    else "early-stage"
  "A " ++ activityLevel ++ " " ++ primaryLang ++ " project showing " ++ readiness ++
    " characteristics with an overall score of " ++ intStr scores.overall ++ "/100."

/-- `generateOpportunityCard` (scoring.ts lines 579-645): null telemetry
yields the fixed empty card (keeping the `scores` argument and fresh
timestamps); otherwise risks, actions, the four strongest signals (stable
sort by descending normalized value), recommendations converted from the
supplied matches, and the generated summary. -/
def generateOpportunityCard (now : ℚ) (result : Option RepoAnalysisResult)
    (signals : List RawSignal) (scores : ProjectScores) : OpportunityCard :=
  match result with
  | none =>
    { id := "opp-" ++ ratStr now
      projectId := "unknown"
      projectName := "Unknown Project"
      projectUrl := ""
      summary := "No analysis data available"
      strongestSignals := []
      riskFlags := []
      scores := scores
      grantRecommendations := []
      nextActions := []
      generatedAt := now }
  | some r =>
    let riskFlags := detectRiskFlags now signals (some r)
    let nextActions := generateNextActions signals (some r) riskFlags
    let sortedSignals :=
      signals.insertionSort fun a b => b.normalizedValue ≤ a.normalizedValue
    let strongestSignals := (sortedSignals.take 4).map fun s =>
      { label := s.label
        value := s.rawValue.asString
        strength :=
          if s.normalizedValue > 0.7 then "strong"
          else if s.normalizedValue > 0.4 then "moderate"
          else "weak" : StrongSignal }
    let grantRecommendations := (matchesOf r).map fun m =>
      { grantId := slugify (m.program.getD "unknown")
        programName := m.program.getD "Unknown Program"
        ecosystem := m.ecosystem.getD "Unknown"
        confidence := m.fitScore.getD 0
        whyFits := m.why.getD []
        applyUrl := m.url : GrantRecommendation }
    let summary := generateProjectSummary r scores
    let repoStr := r.repo.getD ""
    let lastPart := (repoStr.splitOn "/").getLastD ""
    let repoName :=
      if lastPart = "" then (if repoStr = "" then "Unknown" else repoStr) else lastPart
    { id := "opp-" ++ ratStr now
      projectId := repoStr
      projectName := repoName
      projectUrl := if repoStr = "" then "" else "https://github.com/" ++ repoStr
      summary := summary
      strongestSignals := strongestSignals
      riskFlags := riskFlags
      scores := scores
      grantRecommendations := grantRecommendations
      nextActions := nextActions
      generatedAt := now }

-- ============= grant matching (matching.ts, data/niches.ts) =============

/-- Catalog grant entry (`Grant` in data/grants.ts); the string-union
fields (`category`, `ecosystem`, `region`, `grantType`) are modelled by
their string values. -/
structure Grant where
  id : String
  title : String
  organization : String
  description : String
  amount : String
  deadline : String
  category : String
  ecosystem : String
  region : String
  grantType : String
  link : String
  tags : List String
  featured : Option Bool
deriving DecidableEq, Repr

/-- `BuilderNiche` (data/niches.ts lines 2-9). -/
structure BuilderNiche where
  id : String
  name : String
  description : String
  tags : List String
  recommendedLanguages : List String
  recommendedChains : List String
deriving DecidableEq, Repr

/-- The static `NICHES` catalog (data/niches.ts lines 11-92). -/
def NICHES : List BuilderNiche := [
  { id := "defi", name := "DeFi",
    description := "Decentralized finance protocols, DEXs, lending, and yield optimization.",
    tags := ["DeFi", "AMM", "DEX", "Lending", "Yield"],
    recommendedLanguages := ["Solidity", "Rust", "Move"],
    recommendedChains := ["ethereum", "avalanche", "polygon", "arbitrum", "base"] },
  { id := "gaming", name := "Gaming",
    description := "Web3 games, GameFi, and on-chain gaming experiences.",
    tags := ["Gaming", "GameFi", "NFT", "Metaverse"],
    recommendedLanguages := ["Solidity", "Unity", "C++", "Rust"],
    recommendedChains := ["ethereum", "polygon", "avalanche", "immutable"] },
  { id := "infra", name := "Infra & Tooling",
    description := "Developer tools, indexing, SDKs, and blockchain infrastructure.",
    tags := ["Infrastructure", "Tooling", "Indexing", "SDK", "Data"],
    recommendedLanguages := ["Rust", "Go", "TypeScript", "Python"],
    recommendedChains := ["multi-chain", "ethereum", "cosmos"] },
  { id := "ai-crypto", name := "AI x Crypto",
    description := "AI agents, ML models on-chain, and decentralized AI infrastructure.",
    tags := ["AI", "ML", "Agents", "Data", "Compute"],
    recommendedLanguages := ["Python", "Rust", "TypeScript"],
    recommendedChains := ["multi-chain", "ethereum", "solana"] },
  { id := "public-goods", name := "Public Goods",
    description := "Open source projects, public infrastructure, and community-owned protocols.",
    tags := ["Public Goods", "Open Source", "Community", "QF", "Retroactive"],
    recommendedLanguages := ["TypeScript", "Solidity", "Rust"],
    recommendedChains := ["ethereum", "optimism", "multi-chain"] },
  { id := "rwa", name := "RWAs",
    description := "Real-world asset tokenization, securities, and on-chain commodities.",
    tags := ["RWA", "Tokenization", "DeFi", "Enterprise"],
    recommendedLanguages := ["Solidity", "Rust"],
    recommendedChains := ["ethereum", "avalanche", "polygon"] },
  { id := "consumer", name := "Consumer Apps",
    description := "Social apps, creator tools, and user-facing Web3 experiences.",
    tags := ["Social", "Consumer", "Creator", "Lens", "Web3 Social"],
    recommendedLanguages := ["TypeScript", "React", "Swift"],
    recommendedChains := ["polygon", "base", "optimism", "ethereum"] },
  { id := "wallets", name := "Wallets & AA",
    description := "Smart wallets, account abstraction, and key management solutions.",
    tags := ["Wallet", "AA", "Account Abstraction", "Security"],
    recommendedLanguages := ["TypeScript", "Solidity", "Rust"],
    recommendedChains := ["ethereum", "polygon", "base", "multi-chain"] },
  { id := "payments", name := "Payments",
    description := "Stablecoin payments, remittances, and on-chain commerce.",
    tags := ["Payments", "Stablecoin", "Commerce", "DeFi"],
    recommendedLanguages := ["Solidity", "TypeScript", "Go"],
    recommendedChains := ["ethereum", "avalanche", "polygon", "solana"] },
  { id := "education", name := "Education",
    description := "Learn-to-earn, developer education, and onboarding resources.",
    tags := ["Education", "Learn", "Developer", "Onboarding", "Community"],
    recommendedLanguages := ["TypeScript", "Python", "Solidity"],
    recommendedChains := ["multi-chain", "ethereum", "polygon"] } ]

/-- `CHAIN_ECOSYSTEM_MAP` (matching.ts lines 6-17). -/
def CHAIN_ECOSYSTEM_MAP : List (String × List String) := [
  ("ethereum", ["ethereum", "multi-chain"]),
  ("avalanche", ["avalanche", "multi-chain"]),
  ("polygon", ["polygon", "multi-chain"]),
  ("solana", ["solana", "multi-chain"]),
  ("cosmos", ["cosmos", "multi-chain"]),
  ("arbitrum", ["ethereum", "multi-chain"]),
  ("base", ["ethereum", "multi-chain"]),
  ("optimism", ["ethereum", "multi-chain"]),
  ("multi-chain", ["multi-chain", "ethereum", "avalanche", "polygon", "solana", "cosmos"]),
  ("immutable", ["ethereum", "multi-chain"]) ]

/-- `CHAIN_ECOSYSTEM_MAP[chainLower] || [chainLower]`. -/
def chainEcosystems (chainLower : String) : List String :=
  ((CHAIN_ECOSYSTEM_MAP.find? fun p => p.1 == chainLower).map Prod.snd).getD [chainLower]

/-- `scoreGrantMatch` (matching.ts lines 23-53): +2 per niche tag with a
(case-insensitive, either-direction) substring overlap against some grant
tag, +2 when some niche tag contains the grant category, +1 when some
recommended chain's aliased ecosystems contain the grant ecosystem (the
source `break`s after the first hit, so the chain bonus is at most 1 —
equivalently an `any`). -/
def scoreGrantMatch (niche : BuilderNiche) (grant : Grant) : ℤ :=
  let nicheTags := niche.tags.map strToLower
  let grantTags := grant.tags.map strToLower
  let tagScore := nicheTags.foldl
    (fun acc nt =>
      if grantTags.any (fun gt => strIncludes gt nt || strIncludes nt gt) then acc + 2
      else acc) 0
  let catScore : ℤ :=
    if nicheTags.any (fun t => strIncludes t (strToLower grant.category)) then 2 else 0
  let chainScore : ℤ :=
    if niche.recommendedChains.any
        (fun chain => (chainEcosystems (strToLower chain)).contains (strToLower grant.ecosystem))
    then 1 else 0
  tagScore + catScore + chainScore

/-- The filter predicate of `matchGrantsForNiche` (matching.ts lines
65-90): at least one tag (or category) overlap AND a chain/ecosystem
match. -/
def grantMatchesNiche (niche : BuilderNiche) (grant : Grant) : Bool :=
  let nicheTags := niche.tags.map strToLower
  let grantTags := grant.tags.map strToLower
  let grantEcosystem := strToLower grant.ecosystem
  let grantCategory := strToLower grant.category
  let hasTagMatch := nicheTags.any fun nt =>
    grantTags.any (fun gt => strIncludes gt nt || strIncludes nt gt) ||
    strIncludes grantCategory nt || strIncludes nt grantCategory
  let hasChainMatch := grantEcosystem == "multi-chain" ||
    niche.recommendedChains.any
      (fun chain => (chainEcosystems (strToLower chain)).contains grantEcosystem)
  hasTagMatch && hasChainMatch

/-- `matchGrantsForNiche` (matching.ts lines 59-95): resolve the niche id
against the static catalog (unknown id gives `[]`), filter by
`grantMatchesNiche`, then sort by descending `scoreGrantMatch` with the
stable ES2019 `Array.prototype.sort`. -/
def matchGrantsForNiche (nicheId : String) (grants : List Grant) : List Grant :=
  match NICHES.find? fun n => n.id == nicheId with
  | none => []
  | some niche =>
    (grants.filter (grantMatchesNiche niche)).insertionSort
      fun a b => scoreGrantMatch niche b ≤ scoreGrantMatch niche a

-- ============= shared concrete data for witnesses =============

/-- The `defi` entry of `NICHES`. -/
def defiNiche : BuilderNiche :=
  { id := "defi", name := "DeFi",
    description := "Decentralized finance protocols, DEXs, lending, and yield optimization.",
    tags := ["DeFi", "AMM", "DEX", "Lending", "Yield"],
    recommendedLanguages := ["Solidity", "Rust", "Move"],
    recommendedChains := ["ethereum", "avalanche", "polygon", "arbitrum", "base"] }

/-- A concrete grant with tag overlap against the `defi` niche (the §8
example scenario of the spec). -/
def gExample : Grant :=
  { id := "g1", title := "Example DeFi Grant", organization := "Org",
    description := "", amount := "", deadline := "", category := "defi",
    ecosystem := "ethereum", region := "global", grantType := "grant",
    link := "", tags := ["DEX", "DeFi"], featured := none }

/-- A concrete grant matching the `defi` niche both through its single tag
`"DeFi"` and through its category `"defi"`. -/
def gTagCat : Grant :=
  { id := "g2", title := "Tag-and-category Grant", organization := "Org",
    description := "", amount := "", deadline := "", category := "defi",
    ecosystem := "multi-chain", region := "global", grantType := "grant",
    link := "", tags := ["DeFi"], featured := none }

/-- A concrete valid telemetry (the §8 example scenario: 1000 stars, 50
forks, 25 commits, 5/45 issues, quality 85 with three notes, Solidity +
TypeScript, last commit 20 days before `nowExample`). -/
def sampleTelemetry : RepoAnalysisResult :=
  { repo := some "acme/widget"
    stars := some 1000
    forks := some 50
    languages := some ["Solidity", "TypeScript"]
    activity := some ⟨some 0, some 25⟩
    issues := some ⟨some 5, some 45⟩
    codeQuality := some ⟨some 85, some ["has tests", "has CI", "has README"]⟩
    grantFit := some ⟨some ["sig"], some [], some []⟩ }

/-- 20 days after timestamp 0, in milliseconds. -/
def nowExample : ℚ := 20 * 86400000

/-- A telemetry carrying a negative 30-day commit count. -/
def negTelemetry : RepoAnalysisResult :=
  { repo := none, stars := none, forks := none, languages := none,
    activity := some ⟨none, some (-5)⟩, issues := none, codeQuality := none,
    grantFit := none }

-- ============= validity predicate and basic bound lemmas =============

/-- Valid telemetry in the sense of P2: non-negative star / fork / issue /
commit counts, code-quality score in `[0,100]`, last-commit date not in the
future. -/
def ValidTelemetry (now : ℚ) (r : RepoAnalysisResult) : Prop :=
  0 ≤ starsOf r ∧ 0 ≤ forksOf r ∧ 0 ≤ commits30dOf r ∧
  0 ≤ openIssuesOf r ∧ 0 ≤ closedIssuesOf r ∧
  0 ≤ qualityScoreOf r ∧ qualityScoreOf r ≤ 100 ∧
  ∀ t ∈ lastCommitOf r, t ≤ now

/-- Well-formedness of a threshold tier set, as assumed by the claims:
`0 < low < medium < high (< exceptional)`. -/
def ThresholdsOk (t : Thresholds) : Prop :=
  0 < t.low ∧ t.low < t.medium ∧ t.medium < t.high ∧ ∀ e ∈ t.exceptional, t.high < e

/-- The top bound of a tier set: `exceptional` when given, else `high × 2`. -/
def topBound (t : Thresholds) : ℚ := t.exceptional.getD (2 * t.high)

theorem starsThresholdsOk : ThresholdsOk starsThresholds := by
  refine ⟨by norm_num [starsThresholds], by norm_num [starsThresholds],
    by norm_num [starsThresholds], ?_⟩
  intro e he
  simp only [starsThresholds, Option.mem_def, Option.some.injEq] at he
  norm_num [starsThresholds, ← he]

theorem forksThresholdsOk : ThresholdsOk forksThresholds := by
  refine ⟨by norm_num [forksThresholds], by norm_num [forksThresholds],
    by norm_num [forksThresholds], ?_⟩
  intro e he
  simp only [forksThresholds, Option.mem_def, Option.some.injEq] at he
  norm_num [forksThresholds, ← he]

theorem commits30dThresholdsOk : ThresholdsOk commits30dThresholds := by
  refine ⟨by norm_num [commits30dThresholds], by norm_num [commits30dThresholds],
    by norm_num [commits30dThresholds], ?_⟩
  intro e he
  simp only [commits30dThresholds, Option.mem_def, Option.some.injEq] at he
  norm_num [commits30dThresholds, ← he]

theorem jsRound_nonneg {x : ℚ} (h : 0 ≤ x) : 0 ≤ jsRound x := by
  unfold jsRound
  exact Int.le_floor.mpr (by rw [Int.cast_zero]; linarith)

theorem jsRound_le (n : ℤ) {x : ℚ} (h : x ≤ (n : ℚ)) : jsRound x ≤ n := by
  unfold jsRound
  exact Int.floor_le_iff.mpr (by linarith)

-- ============= C1 : totality / null-telemetry behaviour =============

/-- C1: the pipeline is total (every function below is a total Lean
function over arbitrary, possibly fully-absent telemetry), and on `null`
telemetry: `extractSignals`, `detectRiskFlags` and `generateNextActions`
return `[]`, `calculateScores` returns all-zero scores, and
`generateOpportunityCard` (fed the scores the pipeline computes for null
telemetry) returns a card with `scores.overall = 0` and empty `riskFlags`,
`nextActions` and `grantRecommendations`.  For telemetry with every
optional field missing, `extractSignals` still emits exactly the eight
tracked signals. -/
theorem c1_totality (now : ℚ) (signals : List RawSignal) (flags : List RiskFlag) :
    extractSignals now none = [] ∧
    (calculateScores now signals none).overall = 0 ∧
    detectRiskFlags now signals none = [] ∧
    generateNextActions signals none flags = [] ∧
    (generateOpportunityCard now none signals
      (calculateScores now signals none)).scores.overall = 0 ∧
    (generateOpportunityCard now none signals
      (calculateScores now signals none)).riskFlags = [] ∧
    (generateOpportunityCard now none signals
      (calculateScores now signals none)).nextActions = [] ∧
    (generateOpportunityCard now none signals
      (calculateScores now signals none)).grantRecommendations = [] ∧
    (extractSignals now (some emptyTelemetry)).map RawSignal.key =
      ["commits30d", "lastCommitRecency", "stars", "forks", "issueActivity",
       "codeQuality", "hasTests", "hasContracts"] :=
  ⟨rfl, rfl, rfl, rfl, rfl, rfl, rfl, rfl, rfl⟩

-- ============= C10 : unknown niche id =============

/-- C10: a niche id that matches no entry of the static `NICHES` catalog
makes `matchGrantsForNiche` return `[]` for every grant catalog. -/
theorem c10_unknown_niche (nicheId : String) (grants : List Grant)
    (h : ∀ n ∈ NICHES, n.id ≠ nicheId) :
    matchGrantsForNiche nicheId grants = [] := by
  have hnone : NICHES.find? (fun n => n.id == nicheId) = none := by
    rw [List.find?_eq_none]
    intro n hn
    simpa using h n hn
  unfold matchGrantsForNiche
  rw [hnone]

/-- Witness for C10 at the concrete id `"no-such-niche"`. -/
theorem c10_witness :
    matchGrantsForNiche "no-such-niche" [gExample] = [] :=
  c10_unknown_niche "no-such-niche" [gExample] (by decide)

-- ============= normalizeValue : tier equations and bounds =============

theorem nv_tier1 {t : Thresholds} {v : ℚ} (hv : v ≤ t.low) :
    normalizeValue v t = v / t.low * 0.25 := by
  unfold normalizeValue
  rw [if_pos hv]

theorem nv_tier2 {t : Thresholds} {v : ℚ} (h1 : t.low < v) (hv : v ≤ t.medium) :
    normalizeValue v t = 0.25 + (v - t.low) / (t.medium - t.low) * 0.25 := by
  unfold normalizeValue
  rw [if_neg (not_le.mpr h1), if_pos hv]

theorem nv_tier3 {t : Thresholds} {v : ℚ} (ht : ThresholdsOk t)
    (h2 : t.medium < v) (hv : v ≤ t.high) :
    normalizeValue v t = 0.5 + (v - t.medium) / (t.high - t.medium) * 0.25 := by
  obtain ⟨hl, hlm, _, _⟩ := ht
  unfold normalizeValue
  rw [if_neg (not_le.mpr (lt_trans hlm h2)), if_neg (not_le.mpr h2), if_pos hv]

theorem nv_tier4 {t : Thresholds} {v e : ℚ} (ht : ThresholdsOk t)
    (he : t.exceptional = some e) (h3 : t.high < v) (hv : v ≤ e) :
    normalizeValue v t = 0.75 + (v - t.high) / (e - t.high) * 0.25 := by
  obtain ⟨hl, hlm, hmh, hex⟩ := ht
  have hhe : t.high < e := hex e (by simp [he])
  have hepos : (0 : ℚ) < e := by linarith
  unfold normalizeValue
  rw [if_neg (not_le.mpr (lt_trans hlm (lt_trans hmh h3))),
    if_neg (not_le.mpr (lt_trans hmh h3)), if_neg (not_le.mpr h3), he]
  exact if_pos ⟨ne_of_gt hepos, hv⟩

theorem nv_eq_one_of_none {t : Thresholds} {v : ℚ} (ht : ThresholdsOk t)
    (he : t.exceptional = none) (h3 : t.high < v) : normalizeValue v t = 1 := by
  obtain ⟨hl, hlm, hmh, _⟩ := ht
  unfold normalizeValue
  rw [if_neg (not_le.mpr (lt_trans hlm (lt_trans hmh h3))),
    if_neg (not_le.mpr (lt_trans hmh h3)), if_neg (not_le.mpr h3), he]

theorem nv_eq_one_of_gt {t : Thresholds} {v e : ℚ} (ht : ThresholdsOk t)
    (he : t.exceptional = some e) (hev : e < v) : normalizeValue v t = 1 := by
  obtain ⟨hl, hlm, hmh, hex⟩ := ht
  have hhe : t.high < e := hex e (by simp [he])
  have h3 : t.high < v := lt_trans hhe hev
  unfold normalizeValue
  rw [if_neg (not_le.mpr (lt_trans hlm (lt_trans hmh h3))),
    if_neg (not_le.mpr (lt_trans hmh h3)), if_neg (not_le.mpr h3), he]
  exact if_neg (by push_neg; intro _; linarith)

theorem nv_eq_one_of_topBound {t : Thresholds} {v : ℚ} (ht : ThresholdsOk t)
    (hv : topBound t ≤ v) : normalizeValue v t = 1 := by
  obtain ⟨hl, hlm, hmh, hex⟩ := ht
  cases he : t.exceptional with
  | none =>
    have hb : topBound t = 2 * t.high := by simp [topBound, he]
    have hhigh : (0 : ℚ) < t.high := by linarith
    exact nv_eq_one_of_none ⟨hl, hlm, hmh, hex⟩ he (by rw [hb] at hv; linarith)
  | some e =>
    have hb : topBound t = e := by simp [topBound, he]
    have hhe : t.high < e := hex e (by simp [he])
    rw [hb] at hv
    rcases eq_or_lt_of_le hv with heq | hlt
    · rw [nv_tier4 ⟨hl, hlm, hmh, hex⟩ he (heq ▸ hhe) heq.ge, ← heq,
        div_self (ne_of_gt (sub_pos.mpr hhe))]
      norm_num
    · exact nv_eq_one_of_gt ⟨hl, hlm, hmh, hex⟩ he hlt

theorem nv_le_quarter {t : Thresholds} {v : ℚ} (hl : 0 < t.low) (hv : v ≤ t.low) :
    normalizeValue v t ≤ 0.25 := by
  rw [nv_tier1 hv]
  have h1 : v / t.low ≤ 1 := (div_le_one hl).mpr hv
  linarith

theorem nv_ge_threequarters {t : Thresholds} {v : ℚ} (ht : ThresholdsOk t)
    (h3 : t.high < v) : 0.75 ≤ normalizeValue v t := by
  obtain ⟨hl, hlm, hmh, hex⟩ := ht
  cases he : t.exceptional with
  | none => rw [nv_eq_one_of_none ⟨hl, hlm, hmh, hex⟩ he h3]; norm_num
  | some e =>
    have hhe : t.high < e := hex e (by simp [he])
    rcases le_or_lt v e with hve | hve
    · rw [nv_tier4 ⟨hl, hlm, hmh, hex⟩ he h3 hve]
      have : 0 ≤ (v - t.high) / (e - t.high) :=
        div_nonneg (by linarith) (by linarith)
      linarith
    · rw [nv_eq_one_of_gt ⟨hl, hlm, hmh, hex⟩ he hve]; norm_num

theorem nv_ge_half {t : Thresholds} {v : ℚ} (ht : ThresholdsOk t)
    (h2 : t.medium < v) : 0.5 ≤ normalizeValue v t := by
  obtain ⟨hl, hlm, hmh, hex⟩ := ht
  rcases le_or_lt v t.high with h3 | h3
  · rw [nv_tier3 ⟨hl, hlm, hmh, hex⟩ h2 h3]
    have : 0 ≤ (v - t.medium) / (t.high - t.medium) :=
      div_nonneg (by linarith) (by linarith)
    linarith
  · linarith [nv_ge_threequarters ⟨hl, hlm, hmh, hex⟩ h3]

theorem nv_ge_quarter {t : Thresholds} {v : ℚ} (ht : ThresholdsOk t)
    (h1 : t.low < v) : 0.25 ≤ normalizeValue v t := by
  obtain ⟨hl, hlm, hmh, hex⟩ := ht
  rcases le_or_lt v t.medium with h2 | h2
  · rw [nv_tier2 h1 h2]
    have : 0 ≤ (v - t.low) / (t.medium - t.low) :=
      div_nonneg (by linarith) (by linarith)
    linarith
  · linarith [nv_ge_half ⟨hl, hlm, hmh, hex⟩ h2]

theorem nv_le_half {t : Thresholds} {v : ℚ} (ht : ThresholdsOk t)
    (hv : v ≤ t.medium) : normalizeValue v t ≤ 0.5 := by
  obtain ⟨hl, hlm, hmh, hex⟩ := ht
  rcases le_or_lt v t.low with h1 | h1
  · linarith [nv_le_quarter hl h1]
  · rw [nv_tier2 h1 hv]
    have : (v - t.low) / (t.medium - t.low) ≤ 1 :=
      (div_le_one (by linarith)).mpr (by linarith)
    linarith

theorem nv_le_threequarters {t : Thresholds} {v : ℚ} (ht : ThresholdsOk t)
    (hv : v ≤ t.high) : normalizeValue v t ≤ 0.75 := by
  obtain ⟨hl, hlm, hmh, hex⟩ := ht
  rcases le_or_lt v t.medium with h2 | h2
  · linarith [nv_le_half ⟨hl, hlm, hmh, hex⟩ h2]
  · rw [nv_tier3 ⟨hl, hlm, hmh, hex⟩ h2 hv]
    have : (v - t.medium) / (t.high - t.medium) ≤ 1 :=
      (div_le_one (by linarith)).mpr (by linarith)
    linarith

theorem nv_le_one {t : Thresholds} (v : ℚ) (ht : ThresholdsOk t) :
    normalizeValue v t ≤ 1 := by
  obtain ⟨hl, hlm, hmh, hex⟩ := ht
  rcases le_or_lt v t.high with h3 | h3
  · linarith [nv_le_threequarters ⟨hl, hlm, hmh, hex⟩ h3]
  · cases he : t.exceptional with
    | none => rw [nv_eq_one_of_none ⟨hl, hlm, hmh, hex⟩ he h3]
    | some e =>
      have hhe : t.high < e := hex e (by simp [he])
      rcases le_or_lt v e with hve | hve
      · rw [nv_tier4 ⟨hl, hlm, hmh, hex⟩ he h3 hve]
        have : (v - t.high) / (e - t.high) ≤ 1 :=
          (div_le_one (by linarith)).mpr (by linarith)
        linarith
      · rw [nv_eq_one_of_gt ⟨hl, hlm, hmh, hex⟩ he hve]

theorem nv_nonneg {t : Thresholds} {v : ℚ} (ht : ThresholdsOk t) (h0 : 0 ≤ v) :
    0 ≤ normalizeValue v t := by
  obtain ⟨hl, hlm, hmh, hex⟩ := ht
  rcases le_or_lt v t.low with h1 | h1
  · rw [nv_tier1 h1]
    exact mul_nonneg (div_nonneg h0 hl.le) (by norm_num)
  · linarith [nv_ge_quarter ⟨hl, hlm, hmh, hex⟩ h1]

theorem nv_bounds {t : Thresholds} {v : ℚ} (ht : ThresholdsOk t) (h0 : 0 ≤ v) :
    0 ≤ normalizeValue v t ∧ normalizeValue v t ≤ 1 :=
  ⟨nv_nonneg ht h0, nv_le_one v ht⟩

theorem nv_zero {t : Thresholds} (ht : ThresholdsOk t) :
    normalizeValue 0 t = 0 := by
  rw [nv_tier1 ht.1.le, zero_div, zero_mul]

theorem nv_mono {t : Thresholds} {v w : ℚ} (ht : ThresholdsOk t) (hvw : v ≤ w) :
    normalizeValue v t ≤ normalizeValue w t := by
  obtain ⟨hl, hlm, hmh, hex⟩ := ht
  rcases le_or_lt v t.low with hv1 | hv1
  · rcases le_or_lt w t.low with hw1 | hw1
    · rw [nv_tier1 hv1, nv_tier1 hw1]
      have := (div_le_div_iff_of_pos_right hl).mpr hvw
      linarith
    · exact le_trans (nv_le_quarter hl hv1) (nv_ge_quarter ⟨hl, hlm, hmh, hex⟩ hw1)
  · have hw1 : t.low < w := lt_of_lt_of_le hv1 hvw
    rcases le_or_lt v t.medium with hv2 | hv2
    · rcases le_or_lt w t.medium with hw2 | hw2
      · rw [nv_tier2 hv1 hv2, nv_tier2 hw1 hw2]
        have := (div_le_div_iff_of_pos_right (show (0:ℚ) < t.medium - t.low by linarith)).mpr
          (show v - t.low ≤ w - t.low by linarith)
        linarith
      · exact le_trans (nv_le_half ⟨hl, hlm, hmh, hex⟩ hv2)
          (nv_ge_half ⟨hl, hlm, hmh, hex⟩ hw2)
    · have hw2 : t.medium < w := lt_of_lt_of_le hv2 hvw
      rcases le_or_lt v t.high with hv3 | hv3
      · rcases le_or_lt w t.high with hw3 | hw3
        · rw [nv_tier3 ⟨hl, hlm, hmh, hex⟩ hv2 hv3, nv_tier3 ⟨hl, hlm, hmh, hex⟩ hw2 hw3]
          have := (div_le_div_iff_of_pos_right (show (0:ℚ) < t.high - t.medium by linarith)).mpr
            (show v - t.medium ≤ w - t.medium by linarith)
          linarith
        · exact le_trans (nv_le_threequarters ⟨hl, hlm, hmh, hex⟩ hv3)
            (nv_ge_threequarters ⟨hl, hlm, hmh, hex⟩ hw3)
      · have hw3 : t.high < w := lt_of_lt_of_le hv3 hvw
        cases he : t.exceptional with
        | none =>
          rw [nv_eq_one_of_none ⟨hl, hlm, hmh, hex⟩ he hv3,
            nv_eq_one_of_none ⟨hl, hlm, hmh, hex⟩ he hw3]
        | some e =>
          have hhe : t.high < e := hex e (by simp [he])
          rcases le_or_lt w e with hwe | hwe
          · have hve : v ≤ e := le_trans hvw hwe
            rw [nv_tier4 ⟨hl, hlm, hmh, hex⟩ he hv3 hve,
              nv_tier4 ⟨hl, hlm, hmh, hex⟩ he hw3 hwe]
            have := (div_le_div_iff_of_pos_right (show (0:ℚ) < e - t.high by linarith)).mpr
              (show v - t.high ≤ w - t.high by linarith)
            linarith
          · rw [nv_eq_one_of_gt ⟨hl, hlm, hmh, hex⟩ he hwe]
            exact nv_le_one v ⟨hl, hlm, hmh, hex⟩

-- ============= C3 : four-tier piecewise mapping =============

/-- C3 (amended): for `0 < low < medium < high (< exceptional)`,
`normalizeValue` maps `(low, medium]` linearly into `[0.25, 0.5]`,
`(medium, high]` linearly into `[0.5, 0.75]`, and — when an `exceptional`
tier is given — `(high, exceptional]` linearly into `[0.75, 1.0]`, with
everything at or above the top bound mapping to exactly 1.  A value
`≤ low` is scaled by `value / low × 0.25`, which lies in `[0, 0.25]` for
non-negative values.  When no `exceptional` tier is given, every value
above `high` maps to exactly 1 (the code has no linear segment up to
`high × 2`; see the counterexample). -/
theorem c3_piecewise (t : Thresholds) (ht : ThresholdsOk t) (v : ℚ) :
    (v ≤ t.low → normalizeValue v t = v / t.low * 0.25 ∧
      (0 ≤ v → 0 ≤ normalizeValue v t ∧ normalizeValue v t ≤ 0.25)) ∧
    (t.low < v → v ≤ t.medium →
      normalizeValue v t = 0.25 + (v - t.low) / (t.medium - t.low) * 0.25 ∧
      0.25 ≤ normalizeValue v t ∧ normalizeValue v t ≤ 0.5) ∧
    (t.medium < v → v ≤ t.high →
      normalizeValue v t = 0.5 + (v - t.medium) / (t.high - t.medium) * 0.25 ∧
      0.5 ≤ normalizeValue v t ∧ normalizeValue v t ≤ 0.75) ∧
    (∀ e, t.exceptional = some e → t.high < v → v ≤ e →
      normalizeValue v t = 0.75 + (v - t.high) / (e - t.high) * 0.25 ∧
      0.75 ≤ normalizeValue v t ∧ normalizeValue v t ≤ 1) ∧
    (t.exceptional = none → t.high < v → normalizeValue v t = 1) ∧
    (topBound t ≤ v → normalizeValue v t = 1) := by
  refine ⟨?_, ?_, ?_, ?_, ?_, ?_⟩
  · intro hv
    exact ⟨nv_tier1 hv, fun h0 => ⟨nv_nonneg ht h0, nv_le_quarter ht.1 hv⟩⟩
  · intro h1 hv
    exact ⟨nv_tier2 h1 hv, nv_ge_quarter ht h1, nv_le_half ht hv⟩
  · intro h2 hv
    exact ⟨nv_tier3 ht h2 hv, nv_ge_half ht h2, nv_le_threequarters ht hv⟩
  · intro e he h3 hv
    exact ⟨nv_tier4 ht he h3 hv, nv_ge_threequarters ht h3, nv_le_one v ht⟩
  · intro he h3
    exact nv_eq_one_of_none ht he h3
  · intro hv
    exact nv_eq_one_of_topBound ht hv

/-- Counterexample to C3 as stated: with thresholds
`{low 1, medium 2, high 4}` and no exceptional tier, the claim says the
value 6 (between `high` and `high × 2`) maps linearly to
`0.75 + (6-4)/(8-4) × 0.25 = 7/8`, but the code returns exactly 1. -/
theorem c3_counterexample :
    normalizeValue 6 ⟨1, 2, 4, none⟩ = 1 ∧
    0.75 + ((6 : ℚ) - 4) / (2 * 4 - 4) * 0.25 = 7 / 8 ∧
    (1 : ℚ) ≠ 7 / 8 :=
  ⟨by decide, by norm_num, by norm_num⟩

/-- Witness for C3 at the concrete stars thresholds and the value 50
(second tier). -/
theorem c3_witness :
    normalizeValue 50 starsThresholds =
      0.25 + (50 - starsThresholds.low) /
        (starsThresholds.medium - starsThresholds.low) * 0.25 ∧
    0.25 ≤ normalizeValue 50 starsThresholds ∧
    normalizeValue 50 starsThresholds ≤ 0.5 :=
  (c3_piecewise starsThresholds starsThresholdsOk 50).2.1
    (by norm_num [starsThresholds]) (by norm_num [starsThresholds])

-- ============= C4 : monotonicity of normalizeValue =============

/-- C4 (amended): for a fixed well-formed tier set, `normalizeValue` is
non-decreasing in its input and returns exactly 1 at or above the top
bound; it returns 0 at input 0 (negative inputs are scaled by the same
`value / low × 0.25` rule and come out negative, not 0 — see the
counterexample). -/
theorem c4_monotone (t : Thresholds) (ht : ThresholdsOk t) :
    (∀ v w : ℚ, v ≤ w → normalizeValue v t ≤ normalizeValue w t) ∧
    (∀ v : ℚ, topBound t ≤ v → normalizeValue v t = 1) ∧
    normalizeValue 0 t = 0 :=
  ⟨fun _ _ h => nv_mono ht h, fun _ h => nv_eq_one_of_topBound ht h, nv_zero ht⟩

/-- Counterexample to C4 as stated: the input −10 is at or below 0, yet
`normalizeValue` returns −1/4, not 0, on the stars thresholds. -/
theorem c4_counterexample :
    (-10 : ℚ) ≤ 0 ∧ normalizeValue (-10) starsThresholds = -(1 / 4) ∧
    normalizeValue (-10) starsThresholds ≠ 0 :=
  ⟨by norm_num, by norm_num [normalizeValue, starsThresholds],
   by norm_num [normalizeValue, starsThresholds]⟩

/-- Witness for C4 at the concrete stars thresholds. -/
theorem c4_witness :
    normalizeValue 5 starsThresholds ≤ normalizeValue 7 starsThresholds ∧
    normalizeValue 20000 starsThresholds = 1 ∧
    normalizeValue 0 starsThresholds = 0 :=
  ⟨(c4_monotone starsThresholds starsThresholdsOk).1 5 7 (by norm_num),
   (c4_monotone starsThresholds starsThresholdsOk).2.1 20000
     (by norm_num [topBound, starsThresholds]),
   (c4_monotone starsThresholds starsThresholdsOk).2.2⟩

-- ============= bounds for the eight normalized signal values =============

theorem daysSince_nonneg (now : ℚ) (r : RepoAnalysisResult)
    (h : ∀ t ∈ lastCommitOf r, t ≤ now) :
    0 ≤ daysSinceCommit now (lastCommitOf r) := by
  cases hl : lastCommitOf r with
  | none => norm_num [daysSinceCommit]
  | some t =>
    have ht : t ≤ now := h t (by simp [hl])
    simp only [daysSinceCommit]
    exact Int.floor_nonneg.mpr (div_nonneg (by linarith) (by norm_num))

theorem nvRecency_bounds (now : ℚ) (r : RepoAnalysisResult)
    (h : 0 ≤ daysSinceCommit now (lastCommitOf r)) :
    0 ≤ nvRecency now r ∧ nvRecency now r ≤ 1 := by
  unfold nvRecency
  refine ⟨le_max_left 0 _, max_le (by norm_num) ?_⟩
  have h0 : (0 : ℚ) ≤ (daysSinceCommit now (lastCommitOf r) : ℚ) := by exact_mod_cast h
  have := div_nonneg h0 (by norm_num : (0 : ℚ) ≤ 90)
  linarith

theorem issueRate_bounds (r : RepoAnalysisResult) (ho : 0 ≤ openIssuesOf r)
    (hc : 0 ≤ closedIssuesOf r) : 0 ≤ issueRateOf r ∧ issueRateOf r ≤ 1 := by
  unfold issueRateOf
  split_ifs with h
  · exact ⟨div_nonneg hc (by linarith), by rw [div_le_one h]; linarith⟩
  · norm_num

theorem flooredIssueRatio_bounds (r : RepoAnalysisResult) (ho : 0 ≤ openIssuesOf r)
    (hc : 0 ≤ closedIssuesOf r) :
    0 ≤ flooredIssueRatio r ∧ flooredIssueRatio r ≤ 1 := by
  unfold flooredIssueRatio
  have hpos : (0 : ℚ) < max 1 (openIssuesOf r + closedIssuesOf r) :=
    lt_of_lt_of_le one_pos (le_max_left _ _)
  refine ⟨div_nonneg hc hpos.le, ?_⟩
  rw [div_le_one hpos]
  calc closedIssuesOf r ≤ openIssuesOf r + closedIssuesOf r := by linarith
  _ ≤ max 1 (openIssuesOf r + closedIssuesOf r) := le_max_right _ _

theorem nvQuality_bounds (r : RepoAnalysisResult) (h0 : 0 ≤ qualityScoreOf r)
    (h100 : qualityScoreOf r ≤ 100) : 0 ≤ nvQuality r ∧ nvQuality r ≤ 1 :=
  ⟨div_nonneg h0 (by norm_num),
   (div_le_one (by norm_num : (0 : ℚ) < 100)).mpr h100⟩

theorem boolNv_bounds (b : Bool) :
    0 ≤ (if b then (1 : ℚ) else 0) ∧ (if b then (1 : ℚ) else 0) ≤ 1 := by
  cases b <;> norm_num

-- ============= C5 : signal normalized values lie in [0,1] =============

/-- C5 (amended): for every telemetry with non-negative star / fork /
commit / issue counts, a code-quality score in `[0,100]` and a last-commit
date not in the future, every signal emitted by `extractSignals` has its
normalized value in `[0,1]`.  (The code does not clamp: out-of-range raw
telemetry produces out-of-range normalized values — see the
counterexample.) -/
theorem c5_normalized_bounds (now : ℚ) (r : RepoAnalysisResult)
    (h : ValidTelemetry now r) :
    ∀ s ∈ extractSignals now (some r),
      0 ≤ s.normalizedValue ∧ s.normalizedValue ≤ 1 := by
  obtain ⟨hst, hfk, hcm, ho, hcl, hq0, hq100, hlc⟩ := h
  have hd := daysSince_nonneg now r hlc
  intro s hsm
  simp only [extractSignals, List.mem_cons, List.not_mem_nil, or_false] at hsm
  rcases hsm with h1 | h1 | h1 | h1 | h1 | h1 | h1 | h1 <;> subst h1
  · exact nv_bounds commits30dThresholdsOk hcm
  · exact nvRecency_bounds now r hd
  · exact nv_bounds starsThresholdsOk hst
  · exact nv_bounds forksThresholdsOk hfk
  · exact issueRate_bounds r ho hcl
  · exact nvQuality_bounds r hq0 hq100
  · exact boolNv_bounds (hasTestsB r)
  · exact boolNv_bounds (hasSolidityB r)

/-- Counterexample to C5 as stated: for telemetry reporting −5 commits in
30 days, the `commits30d` signal has normalized value −1/4, below 0. -/
theorem c5_counterexample :
    ((extractSignals 0 (some negTelemetry)).map RawSignal.normalizedValue).head? =
      some (-(1 / 4)) ∧ (-(1 / 4) : ℚ) < 0 := by
  constructor
  · show some (nvCommits negTelemetry) = some (-(1 / 4))
    norm_num [nvCommits, commits30dOf, negTelemetry, normalizeValue,
      commits30dThresholds]
  · norm_num

/-- The §8 example telemetry is valid. -/
theorem sampleTelemetryValid : ValidTelemetry nowExample sampleTelemetry := by
  refine ⟨by norm_num [starsOf, sampleTelemetry], by norm_num [forksOf, sampleTelemetry],
    by norm_num [commits30dOf, sampleTelemetry],
    by norm_num [openIssuesOf, sampleTelemetry],
    by norm_num [closedIssuesOf, sampleTelemetry],
    by norm_num [qualityScoreOf, sampleTelemetry],
    by norm_num [qualityScoreOf, sampleTelemetry], ?_⟩
  intro t ht
  have h0 : some (0 : ℚ) = some t := ht
  have h1 : (0 : ℚ) = t := by injection h0
  rw [← h1]
  norm_num [nowExample]

/-- Witness for C5 at the concrete §8 example telemetry, instantiated at
the first emitted signal. -/
theorem c5_witness :
    0 ≤ ((extractSignals nowExample (some sampleTelemetry)).headD default).normalizedValue ∧
    ((extractSignals nowExample (some sampleTelemetry)).headD default).normalizedValue ≤ 1 :=
  c5_normalized_bounds nowExample sampleTelemetry sampleTelemetryValid _
    (List.mem_cons_self _ _)

-- ============= C2 : score bounds =============

theorem grantFit_bounds (now : ℚ) (r : RepoAnalysisResult) (h : ValidTelemetry now r) :
    0 ≤ (calculateGrantFitScore (extractSignals now (some r)) r).score ∧
    (calculateGrantFitScore (extractSignals now (some r)) r).score ≤ 100 := by
  obtain ⟨hst, hfk, hcm, ho, hcl, hq0, hq100, hlc⟩ := h
  obtain ⟨hq1, hq2⟩ := nvQuality_bounds r hq0 hq100
  obtain ⟨hc1, hc2⟩ : 0 ≤ nvCommits r ∧ nvCommits r ≤ 1 :=
    nv_bounds commits30dThresholdsOk hcm
  obtain ⟨hr1, hr2⟩ := nvRecency_bounds now r (daysSince_nonneg now r hlc)
  obtain ⟨hs1, hs2⟩ : 0 ≤ nvStars r ∧ nvStars r ≤ 1 :=
    nv_bounds starsThresholdsOk hst
  obtain ⟨hf1, hf2⟩ : 0 ≤ nvForks r ∧ nvForks r ≤ 1 :=
    nv_bounds forksThresholdsOk hfk
  obtain ⟨hi1, hi2⟩ := issueRate_bounds r ho hcl
  rw [show (calculateGrantFitScore (extractSignals now (some r)) r).score =
      jsRound (nvQuality r * 40 + (nvCommits r + (nvRecency now r + 0)) / 2 * 30 +
        (nvStars r + (nvForks r + (issueRateOf r + 0))) / 3 * 30) from rfl]
  exact ⟨jsRound_nonneg (by linarith), jsRound_le 100 (by push_cast; linarith)⟩

theorem capital_bounds (now : ℚ) (r : RepoAnalysisResult) (h : ValidTelemetry now r) :
    0 ≤ (calculateCapitalReadinessScore (extractSignals now (some r)) r).score ∧
    (calculateCapitalReadinessScore (extractSignals now (some r)) r).score ≤ 100 := by
  obtain ⟨hst, hfk, hcm, ho, hcl, hq0, hq100, hlc⟩ := h
  obtain ⟨hq1, hq2⟩ := nvQuality_bounds r hq0 hq100
  obtain ⟨hi1, hi2⟩ := flooredIssueRatio_bounds r ho hcl
  have hd1 : (0 : ℚ) ≤ min (((qualityNotesOf r).length : ℚ) * 7) 35 :=
    le_min (by positivity) (by norm_num)
  have hd2 := min_le_right (((qualityNotesOf r).length : ℚ) * 7) 35
  have hv1 : (0 : ℚ) ≤ min (commits30dOf r * 0.5) 20 :=
    le_min (by positivity) (by norm_num)
  have hv2 := min_le_right (commits30dOf r * 0.5) 20
  rw [show (calculateCapitalReadinessScore (extractSignals now (some r)) r).score =
      jsRound (min (((qualityNotesOf r).length : ℚ) * 7) 35 + qualityScoreOf r / 100 * 30 +
        min (commits30dOf r * 0.5) 20 + flooredIssueRatio r * 15) from rfl]
  have hq' : 0 ≤ qualityScoreOf r / 100 ∧ qualityScoreOf r / 100 ≤ 1 := ⟨hq1, hq2⟩
  exact ⟨jsRound_nonneg (by linarith), jsRound_le 100 (by push_cast; linarith)⟩

theorem ecosystem_bounds (now : ℚ) (r : RepoAnalysisResult) :
    0 ≤ (calculateEcosystemAlignmentScore (extractSignals now (some r)) r).score ∧
    (calculateEcosystemAlignmentScore (extractSignals now (some r)) r).score ≤ 100 := by
  have h25 : (0 : ℚ) ≤ (if (languagesOf r).contains "Solidity" then (25 : ℚ) else 0) := by
    split_ifs <;> norm_num
  have h15 : (0 : ℚ) ≤ (if (languagesOf r).contains "Rust" then (15 : ℚ) else 0) := by
    split_ifs <;> norm_num
  have h10 : (0 : ℚ) ≤ (if (languagesOf r).contains "TypeScript" ||
      (languagesOf r).contains "JavaScript" then (10 : ℚ) else 0) := by
    split_ifs <;> norm_num
  have hl1 : (0 : ℚ) ≤ min ((if (languagesOf r).contains "Solidity" then (25 : ℚ) else 0) +
      (if (languagesOf r).contains "Rust" then (15 : ℚ) else 0) +
      (if (languagesOf r).contains "TypeScript" ||
        (languagesOf r).contains "JavaScript" then (10 : ℚ) else 0)) 50 :=
    le_min (by linarith) (by norm_num)
  have hl2 := min_le_right ((if (languagesOf r).contains "Solidity" then (25 : ℚ) else 0) +
      (if (languagesOf r).contains "Rust" then (15 : ℚ) else 0) +
      (if (languagesOf r).contains "TypeScript" ||
        (languagesOf r).contains "JavaScript" then (10 : ℚ) else 0)) 50
  have hs1 : (0 : ℚ) ≤ min (((grantSignalsOf r).length : ℚ) * 10) 50 :=
    le_min (by positivity) (by norm_num)
  have hs2 := min_le_right (((grantSignalsOf r).length : ℚ) * 10) 50
  rw [show (calculateEcosystemAlignmentScore (extractSignals now (some r)) r).score =
      jsRound (min ((if (languagesOf r).contains "Solidity" then (25 : ℚ) else 0) +
          (if (languagesOf r).contains "Rust" then (15 : ℚ) else 0) +
          (if (languagesOf r).contains "TypeScript" ||
            (languagesOf r).contains "JavaScript" then (10 : ℚ) else 0)) 50 +
        min (((grantSignalsOf r).length : ℚ) * 10) 50) from rfl]
  exact ⟨jsRound_nonneg (by linarith), jsRound_le 100 (by push_cast; linarith)⟩

theorem engagement_bounds (now : ℚ) (r : RepoAnalysisResult) (h : ValidTelemetry now r) :
    0 ≤ (calculateEngagementEaseScore now (extractSignals now (some r)) r).score ∧
    (calculateEngagementEaseScore now (extractSignals now (some r)) r).score ≤ 100 := by
  obtain ⟨hst, hfk, hcm, ho, hcl, hq0, hq100, hlc⟩ := h
  obtain ⟨hi1, hi2⟩ := flooredIssueRatio_bounds r ho hcl
  have hd0 : (0 : ℚ) ≤ (daysSinceCommit now (lastCommitOf r) : ℚ) := by
    exact_mod_cast daysSince_nonneg now r hlc
  have hr1 : (0 : ℚ) ≤ max 0 (40 - (daysSinceCommit now (lastCommitOf r) : ℚ) * 0.5) :=
    le_max_left 0 _
  have hr2 : max 0 (40 - (daysSinceCommit now (lastCommitOf r) : ℚ) * 0.5) ≤ 40 :=
    max_le (by norm_num) (by nlinarith)
  have hn1 : (0 : ℚ) ≤ min (((qualityNotesOf r).length : ℚ) * 6) 30 :=
    le_min (by positivity) (by norm_num)
  have hn2 := min_le_right (((qualityNotesOf r).length : ℚ) * 6) 30
  rw [show (calculateEngagementEaseScore now (extractSignals now (some r)) r).score =
      jsRound (max 0 (40 - (daysSinceCommit now (lastCommitOf r) : ℚ) * 0.5) +
        flooredIssueRatio r * 30 + min (((qualityNotesOf r).length : ℚ) * 6) 30) from rfl]
  exact ⟨jsRound_nonneg (by linarith), jsRound_le 100 (by push_cast; linarith)⟩

/-- C2: for every valid telemetry (non-negative counts, quality score in
`[0,100]`, last commit not in the future), each of the four sub-scores and
the overall score computed by `calculateScores` on the extracted signals is
an integer (the `score` fields are integers by construction, being
`Math.round` results) in `[0,100]`. -/
theorem c2_score_bounds (now : ℚ) (r : RepoAnalysisResult) (h : ValidTelemetry now r) :
    (0 ≤ (calculateScores now (extractSignals now (some r)) (some r)).grantFit.score ∧
      (calculateScores now (extractSignals now (some r)) (some r)).grantFit.score ≤ 100) ∧
    (0 ≤ (calculateScores now (extractSignals now (some r)) (some r)).capitalReadiness.score ∧
      (calculateScores now (extractSignals now (some r)) (some r)).capitalReadiness.score ≤ 100) ∧
    (0 ≤ (calculateScores now (extractSignals now (some r)) (some r)).ecosystemAlignment.score ∧
      (calculateScores now (extractSignals now (some r)) (some r)).ecosystemAlignment.score ≤ 100) ∧
    (0 ≤ (calculateScores now (extractSignals now (some r)) (some r)).engagementEase.score ∧
      (calculateScores now (extractSignals now (some r)) (some r)).engagementEase.score ≤ 100) ∧
    (0 ≤ (calculateScores now (extractSignals now (some r)) (some r)).overall ∧
      (calculateScores now (extractSignals now (some r)) (some r)).overall ≤ 100) := by
  obtain ⟨hg1, hg2⟩ := grantFit_bounds now r h
  obtain ⟨hc1, hc2⟩ := capital_bounds now r h
  obtain ⟨he1, he2⟩ := ecosystem_bounds now r
  obtain ⟨hn1, hn2⟩ := engagement_bounds now r h
  refine ⟨⟨hg1, hg2⟩, ⟨hc1, hc2⟩, ⟨he1, he2⟩, ⟨hn1, hn2⟩, ?_⟩
  have hgq1 : (0 : ℚ) ≤ ((calculateGrantFitScore (extractSignals now (some r)) r).score : ℚ) := by
    exact_mod_cast hg1
  have hgq2 : ((calculateGrantFitScore (extractSignals now (some r)) r).score : ℚ) ≤ 100 := by
    exact_mod_cast hg2
  have hcq1 : (0 : ℚ) ≤
      ((calculateCapitalReadinessScore (extractSignals now (some r)) r).score : ℚ) := by
    exact_mod_cast hc1
  have hcq2 : ((calculateCapitalReadinessScore (extractSignals now (some r)) r).score : ℚ) ≤ 100 := by
    exact_mod_cast hc2
  have heq1 : (0 : ℚ) ≤
      ((calculateEcosystemAlignmentScore (extractSignals now (some r)) r).score : ℚ) := by
    exact_mod_cast he1
  have heq2 : ((calculateEcosystemAlignmentScore (extractSignals now (some r)) r).score : ℚ) ≤ 100 := by
    exact_mod_cast he2
  have hnq1 : (0 : ℚ) ≤
      ((calculateEngagementEaseScore now (extractSignals now (some r)) r).score : ℚ) := by
    exact_mod_cast hn1
  have hnq2 : ((calculateEngagementEaseScore now (extractSignals now (some r)) r).score : ℚ) ≤ 100 := by
    exact_mod_cast hn2
  rw [show (calculateScores now (extractSignals now (some r)) (some r)).overall =
      jsRound (((calculateGrantFitScore (extractSignals now (some r)) r).score : ℚ) * 0.35 +
        ((calculateCapitalReadinessScore (extractSignals now (some r)) r).score : ℚ) * 0.25 +
        ((calculateEcosystemAlignmentScore (extractSignals now (some r)) r).score : ℚ) * 0.25 +
        ((calculateEngagementEaseScore now (extractSignals now (some r)) r).score : ℚ) * 0.15)
      from rfl]
  exact ⟨jsRound_nonneg (by linarith), jsRound_le 100 (by push_cast; linarith)⟩

/-- Witness for C2 at the concrete §8 example telemetry. -/
theorem c2_witness :
    (0 ≤ (calculateScores nowExample (extractSignals nowExample (some sampleTelemetry))
        (some sampleTelemetry)).grantFit.score ∧
      (calculateScores nowExample (extractSignals nowExample (some sampleTelemetry))
        (some sampleTelemetry)).grantFit.score ≤ 100) ∧
    (0 ≤ (calculateScores nowExample (extractSignals nowExample (some sampleTelemetry))
        (some sampleTelemetry)).capitalReadiness.score ∧
      (calculateScores nowExample (extractSignals nowExample (some sampleTelemetry))
        (some sampleTelemetry)).capitalReadiness.score ≤ 100) ∧
    (0 ≤ (calculateScores nowExample (extractSignals nowExample (some sampleTelemetry))
        (some sampleTelemetry)).ecosystemAlignment.score ∧
      (calculateScores nowExample (extractSignals nowExample (some sampleTelemetry))
        (some sampleTelemetry)).ecosystemAlignment.score ≤ 100) ∧
    (0 ≤ (calculateScores nowExample (extractSignals nowExample (some sampleTelemetry))
        (some sampleTelemetry)).engagementEase.score ∧
      (calculateScores nowExample (extractSignals nowExample (some sampleTelemetry))
        (some sampleTelemetry)).engagementEase.score ≤ 100) ∧
    (0 ≤ (calculateScores nowExample (extractSignals nowExample (some sampleTelemetry))
        (some sampleTelemetry)).overall ∧
      (calculateScores nowExample (extractSignals nowExample (some sampleTelemetry))
        (some sampleTelemetry)).overall ≤ 100) :=
  c2_score_bounds nowExample sampleTelemetry sampleTelemetryValid

-- ============= C8 : risk flags =============

theorem foundHasTests_extract (now : ℚ) (r : RepoAnalysisResult) :
    foundHasTests (extractSignals now (some r)) = hasTestsB r := by
  cases h : hasTestsB r
  · show ((some (if hasTestsB r then (1 : ℚ) else 0) : Option ℚ) == some 1) = false
    rw [h]
    rfl
  · show ((some (if hasTestsB r then (1 : ℚ) else 0) : Option ℚ) == some 1) = true
    rw [h]
    rfl

theorem riskFlags_crit_iff (now : ℚ) (sig : List RawSignal) (r : RepoAnalysisResult) :
    (∃ f ∈ detectRiskFlags now sig (some r),
        f.type = FlagKind.critical ∧ f.category = "activity") ↔
      (∃ t, lastCommitOf r = some t ∧ 180 < daysSinceCommit now (some t)) := by
  unfold detectRiskFlags
  simp only [criticalInactivityDays, inactivityDays, lowStars, highOpenIssueShare]
  cases hlc : lastCommitOf r with
  | none => split_ifs <;> simp
  | some t =>
    rcases lt_or_le 180 (daysSinceCommit now (some t)) with hd1 | hd1 <;>
      rcases lt_or_le 60 (daysSinceCommit now (some t)) with hd2 | hd2 <;>
      split_ifs <;>
      simp [hd1, hd2, not_lt.mpr hd1, not_lt.mpr hd2]

theorem riskFlags_warnAct_iff (now : ℚ) (sig : List RawSignal) (r : RepoAnalysisResult) :
    (∃ f ∈ detectRiskFlags now sig (some r),
        f.type = FlagKind.warning ∧ f.category = "activity") ↔
      (∃ t, lastCommitOf r = some t ∧ 60 < daysSinceCommit now (some t) ∧
        daysSinceCommit now (some t) ≤ 180) := by
  unfold detectRiskFlags
  simp only [criticalInactivityDays, inactivityDays, lowStars, highOpenIssueShare]
  cases hlc : lastCommitOf r with
  | none => split_ifs <;> simp
  | some t =>
    rcases lt_or_le 180 (daysSinceCommit now (some t)) with hd1 | hd1 <;>
      rcases lt_or_le 60 (daysSinceCommit now (some t)) with hd2 | hd2 <;>
      split_ifs <;>
      simp [hd1, hd2, not_lt.mpr hd1, not_lt.mpr hd2]

theorem riskFlags_stars_iff (now : ℚ) (sig : List RawSignal) (r : RepoAnalysisResult) :
    (∃ f ∈ detectRiskFlags now sig (some r),
        f.type = FlagKind.warning ∧ f.category = "community" ∧
        f.message = "Low community visibility (few stars)") ↔ starsOf r < 5 := by
  unfold detectRiskFlags
  simp only [criticalInactivityDays, inactivityDays, lowStars, highOpenIssueShare]
  cases hlc : lastCommitOf r with
  | none => split_ifs <;> simp_all
  | some t =>
    rcases lt_or_le 180 (daysSinceCommit now (some t)) with hd1 | hd1 <;>
      rcases lt_or_le 60 (daysSinceCommit now (some t)) with hd2 | hd2 <;>
      split_ifs <;>
      simp_all [hd1, hd2, not_lt.mpr hd1, not_lt.mpr hd2]

theorem riskFlags_tests_iff (now : ℚ) (sig : List RawSignal) (r : RepoAnalysisResult) :
    (∃ f ∈ detectRiskFlags now sig (some r),
        f.type = FlagKind.warning ∧ f.category = "code_quality") ↔
      foundHasTests sig = false := by
  unfold detectRiskFlags
  simp only [criticalInactivityDays, inactivityDays, lowStars, highOpenIssueShare]
  cases hlc : lastCommitOf r with
  | none => split_ifs <;> simp_all
  | some t =>
    rcases lt_or_le 180 (daysSinceCommit now (some t)) with hd1 | hd1 <;>
      rcases lt_or_le 60 (daysSinceCommit now (some t)) with hd2 | hd2 <;>
      split_ifs <;>
      simp_all [hd1, hd2, not_lt.mpr hd1, not_lt.mpr hd2]

theorem riskFlags_issue_iff (now : ℚ) (sig : List RawSignal) (r : RepoAnalysisResult) :
    (∃ f ∈ detectRiskFlags now sig (some r),
        f.type = FlagKind.warning ∧ f.category = "community" ∧
        f.message = "High ratio of unresolved issues") ↔
      (10 < openIssuesOf r + closedIssuesOf r ∧
        0.8 < openIssuesOf r / (openIssuesOf r + closedIssuesOf r)) := by
  unfold detectRiskFlags
  simp only [criticalInactivityDays, inactivityDays, lowStars, highOpenIssueShare]
  cases hlc : lastCommitOf r with
  | none => split_ifs <;> simp_all
  | some t =>
    rcases lt_or_le 180 (daysSinceCommit now (some t)) with hd1 | hd1 <;>
      rcases lt_or_le 60 (daysSinceCommit now (some t)) with hd2 | hd2 <;>
      split_ifs <;>
      simp_all [hd1, hd2, not_lt.mpr hd1, not_lt.mpr hd2]

/-- C8: for present telemetry and the pipeline's own signals,
`detectRiskFlags` emits a critical activity flag exactly when the telemetry
carries a last-commit date more than 180 days old, else a warning activity
flag exactly when it is more than 60 days old (never both); a warning
community flag exactly when stars < 5; a warning code-quality flag exactly
when the `hasTests` signal has normalized value 0; a warning community
flag exactly when there are more than 10 issues of which more than 80% are
unresolved; and no flags at all for absent telemetry.  (When the telemetry
has no last-commit date, "days since last commit" is undefined and the
code emits no activity flag.) -/
theorem c8_risk_flags (now : ℚ) (r : RepoAnalysisResult) :
    ((∃ f ∈ detectRiskFlags now (extractSignals now (some r)) (some r),
        f.type = FlagKind.critical ∧ f.category = "activity") ↔
      (∃ t, lastCommitOf r = some t ∧ 180 < daysSinceCommit now (some t))) ∧
    ((∃ f ∈ detectRiskFlags now (extractSignals now (some r)) (some r),
        f.type = FlagKind.warning ∧ f.category = "activity") ↔
      (∃ t, lastCommitOf r = some t ∧ 60 < daysSinceCommit now (some t) ∧
        daysSinceCommit now (some t) ≤ 180)) ∧
    (¬((∃ f ∈ detectRiskFlags now (extractSignals now (some r)) (some r),
        f.type = FlagKind.critical ∧ f.category = "activity") ∧
      (∃ f ∈ detectRiskFlags now (extractSignals now (some r)) (some r),
        f.type = FlagKind.warning ∧ f.category = "activity"))) ∧
    ((∃ f ∈ detectRiskFlags now (extractSignals now (some r)) (some r),
        f.type = FlagKind.warning ∧ f.category = "community" ∧
        f.message = "Low community visibility (few stars)") ↔ starsOf r < 5) ∧
    ((∃ f ∈ detectRiskFlags now (extractSignals now (some r)) (some r),
        f.type = FlagKind.warning ∧ f.category = "code_quality") ↔
      ((extractSignals now (some r)).find? fun s => s.key == "hasTests").map
        RawSignal.normalizedValue = some 0) ∧
    ((∃ f ∈ detectRiskFlags now (extractSignals now (some r)) (some r),
        f.type = FlagKind.warning ∧ f.category = "community" ∧
        f.message = "High ratio of unresolved issues") ↔
      (10 < openIssuesOf r + closedIssuesOf r ∧
        0.8 < openIssuesOf r / (openIssuesOf r + closedIssuesOf r))) ∧
    (∀ sig : List RawSignal, detectRiskFlags now sig none = []) := by
  refine ⟨riskFlags_crit_iff now (extractSignals now (some r)) r,
    riskFlags_warnAct_iff now (extractSignals now (some r)) r, ?_,
    riskFlags_stars_iff now (extractSignals now (some r)) r, ?_,
    riskFlags_issue_iff now (extractSignals now (some r)) r, fun _ => rfl⟩
  · rintro ⟨hc, hw⟩
    obtain ⟨t, ht, h180⟩ := (riskFlags_crit_iff now (extractSignals now (some r)) r).mp hc
    obtain ⟨u, hu, h60, h180u⟩ :=
      (riskFlags_warnAct_iff now (extractSignals now (some r)) r).mp hw
    rw [ht] at hu
    injection hu with he
    subst he
    omega
  · rw [riskFlags_tests_iff now (extractSignals now (some r)) r,
      foundHasTests_extract now r,
      show ((extractSignals now (some r)).find? fun s => s.key == "hasTests").map
          RawSignal.normalizedValue = some (if hasTestsB r then (1 : ℚ) else 0) from rfl]
    cases hasTestsB r <;> simp

-- ============= C9 : next-action generation =============

/-- The claim's five rules, written from the claim's words: in order —
activity risk present, tests missing, stars < 50, fewer than 3 quality
notes, an externally supplied grant match present — each contributing
exactly one action text or nothing. -/
def specNextActionTexts (signals : List RawSignal) (r : RepoAnalysisResult)
    (riskFlags : List RiskFlag) : List String :=
  (if riskFlags.any (fun f => f.category == "activity") then
    ["Increase commit frequency to show active development"] else []) ++
  (if foundHasTests signals then []
   else ["Add unit tests and integration tests"]) ++
  (if starsOf r < 50 then ["Promote project to increase GitHub stars"] else []) ++
  (if (qualityNotesOf r).length < 3 then
    ["Improve README with installation, usage examples, and API docs"] else []) ++
  (match matchesOf r with
   | [] => []
   | m :: _ => ["Apply to top matching grant: " ++ m.program.getD "undefined"])

theorem map_action_enum (entries : List (String × Priority × String)) :
    ((entries.enum.map fun p =>
      ({ id := "action-" ++ intStr ((p.1 : ℤ) + 1), action := p.2.1,
         priority := p.2.2.1, impact := p.2.2.2, completed := false } :
        NextAction)).map NextAction.action) =
    entries.map fun e => e.1 := by
  rw [List.map_map]
  show entries.enum.map ((fun e : String × Priority × String => e.1) ∘ Prod.snd) =
    entries.map fun e => e.1
  rw [← List.map_map, List.enum_map_snd]

/-- C9: `generateNextActions` returns at most 5 actions (and none for
absent telemetry), and its action texts are exactly the outputs of the five
rules evaluated in the claim's fixed order, truncated to 5 after all rules
run. -/
theorem c9_action_cap (signals : List RawSignal) (r : RepoAnalysisResult)
    (riskFlags : List RiskFlag) :
    (generateNextActions signals (some r) riskFlags).length ≤ 5 ∧
    generateNextActions signals none riskFlags = [] ∧
    (generateNextActions signals (some r) riskFlags).map NextAction.action =
      (specNextActionTexts signals r riskFlags).take 5 := by
  refine ⟨?_, rfl, ?_⟩
  · show (((nextActionEntries signals r riskFlags).enum.map _).take 5).length ≤ 5
    rw [List.length_take]
    exact min_le_left _ _
  · show ((((nextActionEntries signals r riskFlags).enum.map fun p =>
      { id := "action-" ++ intStr ((p.1 : ℤ) + 1), action := p.2.1,
        priority := p.2.2.1, impact := p.2.2.2, completed := false }).take 5).map
          NextAction.action) = _
    rw [List.map_take, map_action_enum]
    congr 1
    unfold nextActionEntries specNextActionTexts
    cases matchesOf r <;> split_ifs <;> rfl

-- ============= C6 / C7 : grant matching =============

/-- Case-insensitive substring overlap in either direction, as in §4.6. -/
def overlapB (nt gt : String) : Bool :=
  strIncludes (strToLower gt) (strToLower nt) || strIncludes (strToLower nt) (strToLower gt)

/-- The claim's tag-overlap condition (a): some niche tag overlaps a grant
tag or the grant's category. -/
def specTagOverlap (niche : BuilderNiche) (grant : Grant) : Prop :=
  ∃ nt ∈ niche.tags, (∃ gt ∈ grant.tags, overlapB nt gt = true) ∨
    strIncludes (strToLower grant.category) (strToLower nt) = true ∨
    strIncludes (strToLower nt) (strToLower grant.category) = true

/-- The claim's chain condition (b): the grant's ecosystem is
`"multi-chain"` or an aliased ecosystem of some recommended chain. -/
def specChainOk (niche : BuilderNiche) (grant : Grant) : Prop :=
  strToLower grant.ecosystem = "multi-chain" ∨
  ∃ chain ∈ niche.recommendedChains,
    strToLower grant.ecosystem ∈ chainEcosystems (strToLower chain)

/-- Overlap of some niche tag with the grant's category alone. -/
def specCatOverlap (niche : BuilderNiche) (grant : Grant) : Prop :=
  ∃ nt ∈ niche.tags, strIncludes (strToLower grant.category) (strToLower nt) = true ∨
    strIncludes (strToLower nt) (strToLower grant.category) = true

/-- The grant with every tag that overlaps some niche tag removed. -/
def stripOverlapTags (niche : BuilderNiche) (grant : Grant) : Grant :=
  { grant with
    tags := grant.tags.filter fun gt => !(niche.tags.any fun nt => overlapB nt gt) }

theorem grantMatchesNiche_iff (niche : BuilderNiche) (grant : Grant) :
    grantMatchesNiche niche grant = true ↔
      specTagOverlap niche grant ∧ specChainOk niche grant := by
  unfold grantMatchesNiche specTagOverlap specChainOk overlapB
  simp only [Bool.and_eq_true, Bool.or_eq_true, List.any_map, List.any_eq_true,
    Function.comp_def, beq_iff_eq, List.contains, List.elem_eq_mem,
    decide_eq_true_eq, or_assoc]

theorem mem_matchGrants {nicheId : String} {niche : BuilderNiche}
    {grants : List Grant} {grant : Grant}
    (hn : NICHES.find? (fun n => n.id == nicheId) = some niche) :
    grant ∈ matchGrantsForNiche nicheId grants ↔
      grant ∈ grants ∧ grantMatchesNiche niche grant = true := by
  unfold matchGrantsForNiche
  rw [hn, List.mem_insertionSort, List.mem_filter]

/-- C6 (amended): when the niche id resolves, a grant appears in
`matchGrantsForNiche` only if it satisfies both the tag-overlap condition
(some niche tag overlaps a grant tag or the grant's category) and the
chain/ecosystem condition; and removing every overlapping tag from a
matched grant removes it from the result, provided no niche tag overlaps
the grant's category (a grant matched through its category alone survives
tag removal — see the counterexample). -/
theorem c6_match_soundness (nicheId : String) (niche : BuilderNiche)
    (grants : List Grant) (grant : Grant)
    (hn : NICHES.find? (fun n => n.id == nicheId) = some niche)
    (hm : grant ∈ matchGrantsForNiche nicheId grants) :
    (specTagOverlap niche grant ∧ specChainOk niche grant) ∧
    (¬specCatOverlap niche grant →
      ∀ catalog : List Grant,
        stripOverlapTags niche grant ∉ matchGrantsForNiche nicheId catalog) := by
  have hpred : grantMatchesNiche niche grant = true :=
    ((mem_matchGrants hn).mp hm).2
  refine ⟨(grantMatchesNiche_iff niche grant).mp hpred, ?_⟩
  intro hcat catalog hmem
  have hpred2 := ((mem_matchGrants hn).mp hmem).2
  obtain ⟨⟨nt, hnt, hover⟩, _⟩ := (grantMatchesNiche_iff _ _).mp hpred2
  rcases hover with ⟨gt, hgt, hob⟩ | hcat1 | hcat2
  · simp only [stripOverlapTags, List.mem_filter] at hgt
    have hno := hgt.2
    simp only [Bool.not_eq_eq_eq_not, Bool.not_true, List.any_eq_false] at hno
    exact absurd hob (by simpa using hno nt hnt)
  · exact hcat ⟨nt, hnt, Or.inl hcat1⟩
  · exact hcat ⟨nt, hnt, Or.inr hcat2⟩

/-- Counterexample to C6's removal clause as stated: `gTagCat` is matched
by the `defi` niche; removing every overlapping tag empties its tag list,
yet the stripped grant is still matched (through its category), so removal
does not remove it from the result. -/
theorem c6_counterexample :
    gTagCat ∈ matchGrantsForNiche "defi" [gTagCat] ∧
    (stripOverlapTags defiNiche gTagCat).tags = [] ∧
    stripOverlapTags defiNiche gTagCat ∈
      matchGrantsForNiche "defi" [stripOverlapTags defiNiche gTagCat] :=
  ⟨by decide, by decide, by decide⟩

/-- Witness for C6 at the `defi` niche and a concrete matched grant. -/
theorem c6_witness :
    specTagOverlap defiNiche gExample ∧ specChainOk defiNiche gExample :=
  (c6_match_soundness "defi" defiNiche [gExample] gExample rfl (by decide)).1

/-- The claim's match score, written from the claim's words:
+2 per niche tag that overlaps some grant tag, +2 when some niche tag
contains the grant's category (case-insensitively), +1 (at most once) when
some recommended chain's aliased ecosystems contain the grant's
ecosystem. -/
def specGrantScore (niche : BuilderNiche) (grant : Grant) : ℤ :=
  2 * ((niche.tags.countP fun nt => grant.tags.any fun gt => overlapB nt gt) : ℤ) +
  (if niche.tags.any (fun nt => strIncludes (strToLower nt) (strToLower grant.category))
    then 2 else 0) +
  (if niche.recommendedChains.any
      (fun c => (chainEcosystems (strToLower c)).contains (strToLower grant.ecosystem))
    then 1 else 0)

theorem foldl_two_count {α : Type} (p : α → Bool) :
    ∀ (l : List α) (n : ℤ),
      l.foldl (fun acc a => if p a then acc + 2 else acc) n =
        n + 2 * (l.countP p : ℤ)
  | [], n => by simp
  | a :: l, n => by
    simp only [List.foldl_cons, List.countP_cons]
    by_cases h : p a = true
    · rw [if_pos h, foldl_two_count p l (n + 2), h, if_pos rfl]
      push_cast
      ring
    · rw [if_neg h, foldl_two_count p l n, eq_false_of_ne_true h, if_neg]
      · push_cast
        ring
      · simp

theorem scoreGrantMatch_eq_spec (niche : BuilderNiche) (grant : Grant) :
    scoreGrantMatch niche grant = specGrantScore niche grant := by
  show (List.foldl
      (fun acc nt =>
        if ((grant.tags.map strToLower).any fun gt => strIncludes gt nt || strIncludes nt gt)
        then acc + 2 else acc) 0 (niche.tags.map strToLower)) +
      (if (niche.tags.map strToLower).any
          (fun t => strIncludes t (strToLower grant.category)) then 2 else 0) +
      (if niche.recommendedChains.any
          (fun chain => (chainEcosystems (strToLower chain)).contains
            (strToLower grant.ecosystem)) then 1 else 0) =
    specGrantScore niche grant
  unfold specGrantScore
  rw [foldl_two_count]
  simp only [List.countP_map, List.any_map, Function.comp_def, overlapB]
  ring

/-- C7: when the niche id resolves, the matched list is pairwise sorted by
non-increasing `scoreGrantMatch`; `scoreGrantMatch` equals the claim's
formula (+2 per overlapping niche tag, +2 for a category overlap, +1 at
most once for a chain alias hit); and for every score value the matched
grants carrying that score appear in catalog order (stable sort). -/
theorem c7_ranking (nicheId : String) (niche : BuilderNiche) (grants : List Grant)
    (hn : NICHES.find? (fun n => n.id == nicheId) = some niche) :
    (matchGrantsForNiche nicheId grants).Pairwise
      (fun a b => scoreGrantMatch niche b ≤ scoreGrantMatch niche a) ∧
    (∀ g, scoreGrantMatch niche g = specGrantScore niche g) ∧
    (∀ s : ℤ, (matchGrantsForNiche nicheId grants).filter
        (fun g => scoreGrantMatch niche g == s) =
      (grants.filter (grantMatchesNiche niche)).filter
        (fun g => scoreGrantMatch niche g == s)) := by
  have hunfold : matchGrantsForNiche nicheId grants =
      (grants.filter (grantMatchesNiche niche)).insertionSort
        (fun a b => scoreGrantMatch niche b ≤ scoreGrantMatch niche a) := by
    unfold matchGrantsForNiche
    rw [hn]
  haveI : IsTotal Grant (fun a b => scoreGrantMatch niche b ≤ scoreGrantMatch niche a) :=
    ⟨fun a b => le_total (scoreGrantMatch niche b) (scoreGrantMatch niche a)⟩
  haveI : IsTrans Grant (fun a b => scoreGrantMatch niche b ≤ scoreGrantMatch niche a) :=
    ⟨fun _ _ _ hab hbc => le_trans hbc hab⟩
  refine ⟨?_, fun g => scoreGrantMatch_eq_spec niche g, ?_⟩
  · rw [hunfold]
    exact List.sorted_insertionSort _ _
  · intro s
    rw [hunfold]
    have hcpair : ((grants.filter (grantMatchesNiche niche)).filter
        (fun g => scoreGrantMatch niche g == s)).Pairwise
        (fun a b => scoreGrantMatch niche b ≤ scoreGrantMatch niche a) := by
      apply List.pairwise_of_forall_mem_list
      intro a ha b hb
      have hsa : scoreGrantMatch niche a = s := by
        simpa using (List.mem_filter.mp ha).2
      have hsb : scoreGrantMatch niche b = s := by
        simpa using (List.mem_filter.mp hb).2
      rw [hsa, hsb]
    have hsub2 := List.sublist_insertionSort hcpair
      (List.filter_sublist (grants.filter (grantMatchesNiche niche)))
    have hc_filter : ((grants.filter (grantMatchesNiche niche)).filter
        (fun g => scoreGrantMatch niche g == s)).filter
        (fun g => scoreGrantMatch niche g == s) =
        (grants.filter (grantMatchesNiche niche)).filter
          (fun g => scoreGrantMatch niche g == s) :=
      List.filter_eq_self.mpr fun a ha => (List.mem_filter.mp ha).2
    have hsub3 := hc_filter ▸ hsub2.filter (fun g => scoreGrantMatch niche g == s)
    have hperm := (List.perm_insertionSort
      (fun a b : Grant => scoreGrantMatch niche b ≤ scoreGrantMatch niche a)
      (grants.filter (grantMatchesNiche niche))).filter
      (fun g => scoreGrantMatch niche g == s)
    exact (hsub3.eq_of_length hperm.length_eq.symm).symm

/-- Witness for C7 at the `defi` niche and a concrete grant. -/
theorem c7_witness :
    scoreGrantMatch defiNiche gExample = specGrantScore defiNiche gExample :=
  (c7_ranking "defi" defiNiche [gExample] rfl).2.1 gExample

end Grantee
